import Mathlib

/-!
Verification development for the microshare-erp-integration repository.

Shallow embedding of the cluster-mapping cache and surgical mutation layer:

* `src/src/microshare_client/cache.py` — `SimpleCache` (per-entry TTL cache);
* `src/api/devices/operations.py` — `OptimizedDeviceManager` (discovery cache,
  guid search, guid-based update/delete, canonical create) and its module-level
  `SimpleCache` (here `OpsSimpleCache`, single TTL for the whole cache);
* `src/api/devices/enhanced_cache_manager.py` — `SmartCacheManager`
  (surgical document-cache mutations);
* `src/api/devices/crud.py` — `FastCRUDManager` (cluster-mapping cache with
  direct cluster access);
* `src/api/devices/routes.py` — the mounted route handlers composing the two.

Conventions of the embedding:

* Python dicts are association lists `List (String × α)`; assignment is
  `setA` (replace in place, append when absent), deletion is `eraseA`.
* Timestamps are `Int`; the current time is a field of the ambient `World`.
* Remote HTTP traffic is a `World`: the discovery response, the per-cluster
  fetch responses and the per-cluster PUT statuses; each issued call is
  recorded in a trace (`RemoteCall`). A `none` response stands for both a
  non-success status and a transport exception, which the source treats alike.
* A device dict is a record of `Option` fields, one per key the source reads
  or writes (`id`, `deviceId`, `guid`, `status`, `meta.location`,
  `meta.placement`, `meta.configuration`, `lastModified`, `createdDate`); the
  `meta` sub-dict is modelled as always present, as both create paths and the
  documented wire shape produce it. A cluster document is its device list
  plus an uninterpreted `rest` carrying the fields no embedded operation touches.
-/

/-- Association-list lookup: first entry with the given key, as in a dict. -/
def lookupA {α : Type} (l : List (String × α)) (k : String) : Option α :=
  match l with
  | [] => none
  | (k', v) :: t => if k' = k then some v else lookupA t k

/-- Association-list assignment with dict semantics: replace the entry in
place when the key exists, append otherwise. -/
def setA {α : Type} (l : List (String × α)) (k : String) (v : α) :
    List (String × α) :=
  match l with
  | [] => [(k, v)]
  | (k', v') :: t => if k' = k then (k, v) :: t else (k', v') :: setA t k v

/-- Association-list deletion of a key, as `del d[k]` on a dict. -/
def eraseA {α : Type} (l : List (String × α)) (k : String) :
    List (String × α) :=
  l.filter (fun p => p.1 != k)





/-- Substring prefix test on character lists (`hay.startswith(needle)`). -/
def lcStartsWith : List Char → List Char → Bool
  | [], _ => true
  | _ :: _, [] => false
  | n :: ns, h :: hs => n == h && lcStartsWith ns hs

/-- Substring containment on character lists, the semantics of the Python
`needle in hay` test on strings. -/
def lcContains (needle : List Char) : List Char → Bool
  | [] => needle.isEmpty
  | h :: hs => lcStartsWith needle (h :: hs) || lcContains needle hs

/-- Lowercased character sequence of a string (`s.lower()`). -/
def pyLower (s : String) : List Char :=
  s.toList.map Char.toLower




/-! ### Core data model -/

/-- Device entry of a cluster document, one `Option` field per dict key the
embedded operations read or write. -/
structure Device where
  id : Option String := none
  deviceId : Option String := none
  guid : Option String := none
  status : Option String := none
  location : Option (List String) := none
  placement : Option String := none
  configuration : Option String := none
  lastModified : Option String := none
  createdDate : Option String := none
deriving DecidableEq

/-- Fetched cluster document: its device list plus the fields the embedded
operations never touch, carried unmodified. -/
structure ClusterDoc where
  devices : List Device
  rest : String := ""
deriving DecidableEq

/-- Per-cluster info assembled by wildcard discovery. -/
structure ClusterInfo where
  clusterId : String
  clusterName : String
  recType : String
  deviceType : String
  deviceCount : Nat
deriving DecidableEq

/-- Raw cluster object of the discovery response envelope. -/
structure RawCluster where
  id : String
  recType : String
  name : String
  devices : List Device
deriving DecidableEq

/-- Remote calls an operation can issue, recorded as a trace. -/
inductive RemoteCall where
  | discover
  | fetch (clusterId : String)
  | put (clusterId : String)
deriving DecidableEq

/-- Remote-store environment for one operation: the discovery response, the
direct fetch response per cluster id, the PUT status per cluster id, the
current clock, and the fresh uuid / iso-timestamp strings the operation would
generate. -/
structure World where
  discovery : Option (List RawCluster)
  fetch : String → Option ClusterDoc
  putOk : String → Bool
  now : Int
  newGuid : String
  nowIso : String

def trapRecordType : String := "io.microshare.trap.packed"

def gatewayRecordType : String := "io.microshare.gateway.health.packed"

/-! ### SimpleCache of src/src/microshare_client/cache.py -/

/-- CacheEntry of `microshare_client/cache.py`: payload, creation time and a
per-entry TTL. -/
structure CacheEntry (α : Type) where
  data : α
  timestamp : Int
  ttl : Int
deriving DecidableEq

/-- Expiry test of `CacheEntry.is_expired`. -/
def CacheEntry.is_expired {α : Type} (now : Int) (e : CacheEntry α) : Bool :=
  now - e.timestamp > e.ttl

/-- SimpleCache of `microshare_client/cache.py`. -/
structure SimpleCache (α : Type) where
  entries : List (String × CacheEntry α)
deriving DecidableEq

/-- Embedding of `SimpleCache.get`: a fresh entry is returned as a hit; a
present-but-expired entry is deleted and reported as a miss. -/
def SimpleCache.get {α : Type} (now : Int) (key : String)
    (c : SimpleCache α) : Option α × SimpleCache α :=
  match lookupA c.entries key with
  | some e =>
    if e.is_expired now then (none, ⟨eraseA c.entries key⟩)
    else (some e.data, c)
  | none => (none, c)

/-- Embedding of `SimpleCache.set`. -/
def SimpleCache.set {α : Type} (now : Int) (key : String) (v : α) (ttl : Int)
    (c : SimpleCache α) : SimpleCache α :=
  ⟨setA c.entries key ⟨v, now, ttl⟩⟩

/-! ### SimpleCache of src/api/devices/operations.py (module-level
discovery cache) -/

/-- Cached wildcard-discovery result: the cluster mapping plus the totals the
source stores alongside it. -/
structure DiscoveryValue where
  clusterMap : List (String × ClusterInfo)
  totalClusters : Nat
  totalDevices : Nat
deriving DecidableEq

/-- SimpleCache of `operations.py`: entries are (value, timestamp) pairs and
one TTL governs the whole cache (300 seconds for the global
`discovery_cache`). -/
structure OpsSimpleCache where
  entries : List (String × (DiscoveryValue × Int))
  ttl : Int := 300
deriving DecidableEq

/-- Embedding of the `operations.py` `SimpleCache.get`: a fresh entry is a
hit; a present-but-stale entry is deleted and reported as a miss. -/
def OpsSimpleCache.get (now : Int) (key : String) (c : OpsSimpleCache) :
    Option DiscoveryValue × OpsSimpleCache :=
  match lookupA c.entries key with
  | some (v, ts) =>
    if now - ts < c.ttl then (some v, c)
    else (none, { c with entries := eraseA c.entries key })
  | none => (none, c)

/-- Embedding of the `operations.py` `SimpleCache.set`. -/
def OpsSimpleCache.set (now : Int) (key : String) (v : DiscoveryValue)
    (c : OpsSimpleCache) : OpsSimpleCache :=
  { c with entries := setA c.entries key (v, now) }

/-- Embedding of the `operations.py` `SimpleCache.clear`. -/
def OpsSimpleCache.clear (c : OpsSimpleCache) : OpsSimpleCache :=
  { c with entries := [] }

/-! ### OptimizedDeviceManager (operations.py) -/

/-- Device-type tag derived from a record type during discovery. -/
def deviceTypeOfRecType (rt : String) : String :=
  if rt = trapRecordType then "rodent_sensor"
  else if rt = gatewayRecordType then "gateway"
  else "unknown"

/-- Cluster mapping assembled from the discovery response, keyed by cluster
id in response order (dict insertion order). -/
def buildClusterMap (clusters : List RawCluster) :
    List (String × ClusterInfo) :=
  clusters.foldl
    (fun m c =>
      setA m c.id
        { clusterId := c.id, clusterName := c.name, recType := c.recType,
          deviceType := deviceTypeOfRecType c.recType,
          deviceCount := c.devices.length })
    []

/-- Discovery result assembled by `wildcard_discovery_with_cache` on a 200
response. -/
def buildDiscoveryValue (clusters : List RawCluster) : DiscoveryValue :=
  { clusterMap := buildClusterMap clusters,
    totalClusters := clusters.length,
    totalDevices := clusters.foldl (fun n c => n + c.devices.length) 0 }

/-- Cache key used by `wildcard_discovery_with_cache`
(`discovery:{api_base}:{access_token[:16]}`). -/
def discoveryKey (tok api : String) : String :=
  "discovery:" ++ api ++ ":" ++ tok.take 16

/-- Outcome of `wildcard_discovery_with_cache`: the discovery value with its
cache-hit flag, or a failure. -/
inductive DiscOutcome where
  | ok (v : DiscoveryValue) (cacheHit : Bool)
  | err (msg : String)
deriving DecidableEq

/-- Result record for discovery: outcome, the discovery cache afterwards and
the remote calls issued. -/
structure DiscR where
  out : DiscOutcome
  cache : OpsSimpleCache
  trace : List RemoteCall
deriving DecidableEq

/-- Embedding of `OptimizedDeviceManager.wildcard_discovery_with_cache`:
a cache hit answers without a remote call; otherwise one bulk discovery call
is issued and a success is cached. -/
def wildcard_discovery_with_cache (tok api : String) (st : OpsSimpleCache)
    (w : World) : DiscR :=
  let key := discoveryKey tok api
  let g := OpsSimpleCache.get w.now key st
  match g.1 with
  | some v => { out := .ok v true, cache := g.2, trace := [] }
  | none =>
    match w.discovery with
    | some clusters =>
      let v := buildDiscoveryValue clusters
      { out := .ok v false, cache := OpsSimpleCache.set w.now key v g.2,
        trace := [.discover] }
    | none =>
      { out := .err "Wildcard discovery failed", cache := g.2,
        trace := [.discover] }

/-- Guid match used by the guid search (the guid key read with an empty
default, compared to the requested guid) on the processed device, whose guid
is copied verbatim from the raw one. -/
def guidMatches (g : String) (d : Device) : Bool :=
  d.guid.getD "" == g

/-- Test/placeholder guid patterns of `find_device_by_guid`. -/
def testPatterns : List String :=
  ["test-", "fake-", "erp-device-test-", "erp-device-fake-",
   "dummy-", "sample-", "placeholder-", "mock-"]

/-- Fast-reject check of `find_device_by_guid`: some test pattern occurs in
the lowercased guid. -/
def matchesTestPattern (guid : String) : Bool :=
  testPatterns.any (fun p => lcContains p.toList (pyLower guid))

/-- Per-cluster search task of `find_device_by_guid`: fetch the cluster and
scan its devices for the guid; a failed fetch (or exception) contributes no
match. -/
def searchCluster (g : String) (info : ClusterInfo) (w : World) :
    Option (Device × ClusterInfo × ClusterDoc) :=
  match w.fetch info.clusterId with
  | some doc => (doc.devices.find? (guidMatches g)).map (fun d => (d, info, doc))
  | none => none

/-- Aggregation of the parallel per-cluster searches: the first settled match
in cluster-map order, as the source scans `asyncio.gather` results in task
order. -/
def searchClusters (g : String) (m : List (String × ClusterInfo))
    (w : World) : Option (Device × ClusterInfo × ClusterDoc) :=
  m.findSome? (fun p => searchCluster g p.2 w)

/-- Outcome of `find_device_by_guid`. -/
inductive FindRes where
  | found (d : Device) (info : ClusterInfo) (doc : ClusterDoc)
  | earlyReject (msg : String)
  | notFound (msg : String)
  | discFail (msg : String)
deriving DecidableEq

/-- Result record for the guid search. -/
structure FindR where
  out : FindRes
  cache : OpsSimpleCache
  trace : List RemoteCall
deriving DecidableEq

/-- Embedding of `OptimizedDeviceManager.find_device_by_guid`: fast-reject on
test patterns, cached discovery, then one fetch per known cluster with the
first match returned and fetch failures swallowed. -/
def find_device_by_guid (g tok api : String) (st : OpsSimpleCache)
    (w : World) : FindR :=
  if matchesTestPattern g then
    { out := .earlyReject ("Device with GUID " ++ g ++
        " not found (early termination: test pattern detected)"),
      cache := st, trace := [] }
  else
    let d := wildcard_discovery_with_cache tok api st w
    match d.out with
    | .ok v _ =>
      let tr := d.trace ++ v.clusterMap.map (fun p => RemoteCall.fetch p.2.clusterId)
      match searchClusters g v.clusterMap w with
      | some (dev, info, doc) =>
        { out := .found dev info doc, cache := d.cache, trace := tr }
      | none =>
        { out := .notFound ("Device with GUID " ++ g ++ " not found"),
          cache := d.cache, trace := tr }
    | .err e =>
      { out := .discFail ("Discovery failed: " ++ e), cache := d.cache,
        trace := d.trace }

/-- List assignment `l[i] = v` with Python semantics: fails (IndexError) when
the index is out of range. -/
def setIdx : List String → Nat → String → Option (List String)
  | [], _, _ => none
  | _ :: t, 0, v => some (v :: t)
  | h :: t, n + 1, v => (setIdx t n v).map (fun l => h :: l)

/-- Optional list assignment: applied only when the update supplies a value,
as the source guards each assignment with a key-presence test. -/
def setIdxOpt (l : List String) (n : Nat) (v : Option String) :
    Option (List String) :=
  match v with
  | none => some l
  | some s => setIdx l n s

/-- Total list assignment for the guarded trailing positions, where the
source checks the length before assigning. -/
def setIdxT (l : List String) (n : Nat) (v : String) : List String :=
  (setIdx l n v).getD l

/-- Removal of the first matching device (`for i, d in enumerate(devices):
if match: devices.pop(i); break`), returning the removed device and the
remaining list. -/
def popFirstBy (p : Device → Bool) : List Device → Option (Device × List Device)
  | [] => none
  | d :: t =>
    if p d then some (d, t)
    else (popFirstBy p t).map (fun r => (r.1, d :: r.2))

/-- In-place update of the first matching device (`for d in devices:
if match: mutate d; break`). -/
def updateFirstBy (p : Device → Bool) (f : Device → Device) :
    List Device → List Device
  | [] => []
  | d :: t => if p d then f d :: t else d :: updateFirstBy p f t

/-- Partial update payload of the guid-based update: one optional value per
recognized key of the `updates` dict. -/
structure DeviceUpdates where
  customer : Option String := none
  site : Option String := none
  area : Option String := none
  erpReference : Option String := none
  placement : Option String := none
  configuration : Option String := none
  status : Option String := none
deriving DecidableEq

/-- Embedding of the per-device mutation inside
`OptimizedDeviceManager.update_device_by_guid`: location positions 0–3 are
assigned when supplied (IndexError — `none` — when the stored location is
shorter than an assigned position), positions 4 and 5 only when the location
is long enough, then status, then `lastModified`. -/
def opsApplyUpdates (u : DeviceUpdates) (nowIso : String) (d : Device) :
    Option Device :=
  let step1 : Option Device :=
    if u.customer.isSome || u.site.isSome || u.area.isSome ||
        u.erpReference.isSome then
      let loc := d.location.getD ["", "", "", ""]
      match setIdxOpt loc 0 u.customer with
      | none => none
      | some l1 =>
        match setIdxOpt l1 1 u.site with
        | none => none
        | some l2 =>
          match setIdxOpt l2 2 u.area with
          | none => none
          | some l3 =>
            match setIdxOpt l3 3 u.erpReference with
            | none => none
            | some l4 => some { d with location := some l4 }
    else some d
  match step1 with
  | none => none
  | some d1 =>
    let d2 :=
      match u.placement with
      | some pv =>
        if (d1.location.getD []).length > 4 then
          { d1 with location := some (setIdxT (d1.location.getD []) 4 pv) }
        else d1
      | none => d1
    let d3 :=
      match u.configuration with
      | some cv =>
        if (d2.location.getD []).length > 5 then
          { d2 with location := some (setIdxT (d2.location.getD []) 5 cv) }
        else d2
      | none => d2
    let d4 :=
      match u.status with
      | some sv => { d3 with status := some sv }
      | none => d3
    some { d4 with lastModified := some nowIso }

/-- Outcome of a write operation: the device it settles on, the targeted
cluster and the whole-document PUT body, or a failure message. -/
inductive OpRes where
  | ok (device : Device) (clusterId : String) (body : ClusterDoc)
  | failed (msg : String)
deriving DecidableEq

/-- Result record for the guid-based write operations. -/
structure OpR where
  out : OpRes
  cache : OpsSimpleCache
  trace : List RemoteCall
deriving DecidableEq

/-- Embedding of `OptimizedDeviceManager.update_device_by_guid`: guid search,
in-memory mutation of the first matching device in the fetched document,
whole-document PUT, and — only on a 200/201 — `discovery_cache.clear()`. -/
def update_device_by_guid (g : String) (u : DeviceUpdates) (tok api : String)
    (st : OpsSimpleCache) (w : World) : OpR :=
  let f := find_device_by_guid g tok api st w
  match f.out with
  | .found d info doc =>
    match opsApplyUpdates u w.nowIso d with
    | none =>
      { out := .failed "GUID update failed: list assignment index out of range",
        cache := f.cache, trace := f.trace }
    | some d' =>
      let devs := updateFirstBy (guidMatches g) (fun _ => d') doc.devices
      let body := { doc with devices := devs }
      let tr := f.trace ++ [RemoteCall.put info.clusterId]
      if w.putOk info.clusterId then
        { out := .ok d' info.clusterId body,
          cache := OpsSimpleCache.clear f.cache, trace := tr }
      else
        { out := .failed "Cluster update failed: HTTP error",
          cache := f.cache, trace := tr }
  | .earlyReject m => { out := .failed m, cache := f.cache, trace := f.trace }
  | .notFound m => { out := .failed m, cache := f.cache, trace := f.trace }
  | .discFail m => { out := .failed m, cache := f.cache, trace := f.trace }

/-- Embedding of `OptimizedDeviceManager.delete_device_by_guid`: guid search,
removal of the first matching device from the fetched document,
whole-document PUT, and — only on a 200/201 — `discovery_cache.clear()`. -/
def delete_device_by_guid (g tok api : String) (st : OpsSimpleCache)
    (w : World) : OpR :=
  let f := find_device_by_guid g tok api st w
  match f.out with
  | .found _ info doc =>
    match popFirstBy (guidMatches g) doc.devices with
    | none =>
      { out := .failed ("Device " ++ g ++ " not found in cluster data"),
        cache := f.cache, trace := f.trace }
    | some (deleted, rest) =>
      let body := { doc with devices := rest }
      let tr := f.trace ++ [RemoteCall.put info.clusterId]
      if w.putOk info.clusterId then
        { out := .ok deleted info.clusterId body,
          cache := OpsSimpleCache.clear f.cache, trace := tr }
      else
        { out := .failed "Cluster update failed: HTTP error",
          cache := f.cache, trace := tr }
  | .earlyReject m => { out := .failed m, cache := f.cache, trace := f.trace }
  | .notFound m => { out := .failed m, cache := f.cache, trace := f.trace }
  | .discFail m => { out := .failed m, cache := f.cache, trace := f.trace }

/-- CanonicalDeviceCreate of `operations.py`, with the pydantic defaults. -/
structure CanonicalDeviceCreate where
  customer : String
  site : String
  area : String
  erpReference : String
  placement : String := "Internal"
  configuration : String := "Bait/Lured"
  deviceId : String := "00-00-00-00-00-00-00-00"
  status : String := "pending"
  deviceType : String := "rodent_sensor"
deriving DecidableEq

/-- Embedding of `OptimizedDeviceManager.create_device`: cached discovery,
first cluster of the matching record type, direct fetch, append of the new
device (4-field location for gateways, 6-field otherwise), whole-document
PUT, and — only on a 200/201 — `discovery_cache.clear()`. -/
def create_device (cd : CanonicalDeviceCreate) (tok api : String)
    (st : OpsSimpleCache) (w : World) : OpR :=
  let recordType :=
    if cd.deviceType = "gateway" then gatewayRecordType else trapRecordType
  let locationArray :=
    if cd.deviceType = "gateway" then
      [cd.customer, cd.site, cd.area, cd.erpReference]
    else
      [cd.customer, cd.site, cd.area, cd.erpReference, cd.placement,
       cd.configuration]
  let dres := wildcard_discovery_with_cache tok api st w
  match dres.out with
  | .err e =>
    { out := .failed ("Discovery failed: " ++ e), cache := dres.cache,
      trace := dres.trace }
  | .ok v _ =>
    match v.clusterMap.find? (fun p => p.2.recType == recordType) with
    | none =>
      { out := .failed ("No clusters found for record type " ++ recordType),
        cache := dres.cache, trace := dres.trace }
    | some target =>
      match w.fetch target.2.clusterId with
      | none =>
        { out := .failed "Failed to access target cluster",
          cache := dres.cache,
          trace := dres.trace ++ [RemoteCall.fetch target.2.clusterId] }
      | some doc =>
        let newDev : Device :=
          { id := some cd.deviceId, location := some locationArray,
            status := some cd.status,
            guid := some ("erp-device-" ++ w.newGuid) }
        let body := { doc with devices := doc.devices ++ [newDev] }
        let tr := dres.trace ++
          [RemoteCall.fetch target.2.clusterId, RemoteCall.put target.2.clusterId]
        if w.putOk target.2.clusterId then
          { out := .ok newDev target.2.clusterId body,
            cache := OpsSimpleCache.clear dres.cache, trace := tr }
        else
          { out := .failed "Failed to create device: HTTP error",
            cache := dres.cache, trace := tr }

/-! ### SmartCacheManager (enhanced_cache_manager.py) -/

/-- Discovery half of the SmartCacheManager state (`cluster_discovery_cache`). -/
structure SmartDiscovery where
  data : List (String × ClusterInfo)
  timestamp : Int
  ttl : Int := 60
deriving DecidableEq

/-- Document half of the SmartCacheManager state (`device_data_cache`):
cached cluster documents and per-cluster last-update timestamps. -/
structure SmartDeviceCache where
  clusters : List (String × ClusterDoc)
  timestamps : List (String × Int)
  ttl : Int := 300
deriving DecidableEq

/-- SmartCacheManager instance state. -/
structure SmartCache where
  discovery : SmartDiscovery
  deviceData : SmartDeviceCache
deriving DecidableEq

/-- Embedding of `SmartCacheManager.is_discovery_cache_valid`: populated and
younger than the TTL. -/
def is_discovery_cache_valid (now : Int) (sc : SmartCache) : Bool :=
  !sc.discovery.data.isEmpty &&
    (now - sc.discovery.timestamp < sc.discovery.ttl)

/-- Device-id match of the surgical operations
(the deviceId key compared to the requested identifier; an absent key
never matches). -/
def deviceIdMatches (i : String) (d : Device) : Bool :=
  d.deviceId == some i

/-- Partial device payload merged by `update_device_in_cache`: one optional
value per device key, merged field-by-field (meta sub-keys individually). -/
structure DevicePatch where
  id : Option String := none
  deviceId : Option String := none
  guid : Option String := none
  status : Option String := none
  location : Option (List String) := none
  placement : Option String := none
  configuration : Option String := none
  createdDate : Option String := none
deriving DecidableEq

/-- Merge of a patch into a device as `update_device_in_cache` performs it:
supplied keys overwrite, `meta` sub-keys merge individually, and
`lastModified` is stamped. -/
def applyPatch (p : DevicePatch) (nowIso : String) (d : Device) : Device :=
  { id := if p.id.isSome then p.id else d.id,
    deviceId := if p.deviceId.isSome then p.deviceId else d.deviceId,
    guid := if p.guid.isSome then p.guid else d.guid,
    status := if p.status.isSome then p.status else d.status,
    location := if p.location.isSome then p.location else d.location,
    placement := if p.placement.isSome then p.placement else d.placement,
    configuration :=
      if p.configuration.isSome then p.configuration else d.configuration,
    lastModified := some nowIso,
    createdDate := if p.createdDate.isSome then p.createdDate else d.createdDate }

/-- Embedding of `SmartCacheManager.update_device_in_cache`: merge the patch
into the first device of the targeted cached cluster whose `deviceId`
matches; no-op returning `false` when the cluster or device is absent. -/
def update_device_in_cache (clusterId deviceId : String) (p : DevicePatch)
    (now : Int) (nowIso : String) (sc : SmartCache) : Bool × SmartCache :=
  match lookupA sc.deviceData.clusters clusterId with
  | none => (false, sc)
  | some doc =>
    if (doc.devices.find? (deviceIdMatches deviceId)).isSome then
      let devs := updateFirstBy (deviceIdMatches deviceId)
        (applyPatch p nowIso) doc.devices
      (true,
        { sc with deviceData :=
          { sc.deviceData with
            clusters := setA sc.deviceData.clusters clusterId
              { doc with devices := devs },
            timestamps := setA sc.deviceData.timestamps clusterId now } })
    else (false, sc)

/-- Embedding of `SmartCacheManager.add_device_to_cache`: append to the
device list of the targeted cached cluster; no-op returning `false` when the
cluster is not cached. -/
def add_device_to_cache (clusterId : String) (d : Device) (now : Int)
    (sc : SmartCache) : Bool × SmartCache :=
  match lookupA sc.deviceData.clusters clusterId with
  | none => (false, sc)
  | some doc =>
    (true,
      { sc with deviceData :=
        { sc.deviceData with
          clusters := setA sc.deviceData.clusters clusterId
            { doc with devices := doc.devices ++ [d] },
          timestamps := setA sc.deviceData.timestamps clusterId now } })

/-- Embedding of `SmartCacheManager.remove_device_from_cache`: remove and
return the first matching device of the targeted cached cluster; `none`
when the cluster or the device is absent. -/
def remove_device_from_cache (clusterId deviceId : String) (now : Int)
    (sc : SmartCache) : Option Device × SmartCache :=
  match lookupA sc.deviceData.clusters clusterId with
  | none => (none, sc)
  | some doc =>
    match popFirstBy (deviceIdMatches deviceId) doc.devices with
    | none => (none, sc)
    | some (removed, rest) =>
      (some removed,
        { sc with deviceData :=
          { sc.deviceData with
            clusters := setA sc.deviceData.clusters clusterId
              { doc with devices := rest },
            timestamps := setA sc.deviceData.timestamps clusterId now } })

/-- Embedding of `SmartCacheManager.get_cluster_for_device_type`: a miss when
the discovery cache fails its validity check, otherwise the first cluster of
the record type matching the device type. -/
def get_cluster_for_device_type (dt : String) (now : Int) (sc : SmartCache) :
    Option (String × ClusterInfo) :=
  if !(is_discovery_cache_valid now sc) then none
  else
    let target :=
      if dt = "rodent_sensor" then some trapRecordType
      else if dt = "gateway" then some gatewayRecordType
      else none
    match target with
    | none => none
    | some rt => sc.discovery.data.find? (fun p => p.2.recType == rt)

/-- Embedding of `SmartCacheManager.invalidate_cluster_cache`. -/
def invalidate_cluster_cache (clusterId : String) (sc : SmartCache) :
    SmartCache :=
  { sc with deviceData :=
    { sc.deviceData with
      clusters := eraseA sc.deviceData.clusters clusterId,
      timestamps := eraseA sc.deviceData.timestamps clusterId } }

/-- Cache operation selected by `update_after_operation`. -/
inductive CacheOp where
  | create (deviceData : Device)
  | update (deviceId : String) (patch : DevicePatch)
  | delete (deviceId : String)
  | other
deriving DecidableEq

/-- Embedding of `SmartCacheManager.update_after_operation`: dispatch to the
matching surgical operation, falling back to surgical cluster invalidation. -/
def update_after_operation (op : CacheOp) (clusterId : String) (now : Int)
    (nowIso : String) (sc : SmartCache) : Bool × SmartCache :=
  match op with
  | .create d => add_device_to_cache clusterId d now sc
  | .update i p => update_device_in_cache clusterId i p now nowIso sc
  | .delete i =>
    let r := remove_device_from_cache clusterId i now sc
    (r.1.isSome, r.2)
  | .other => (true, invalidate_cluster_cache clusterId sc)

/-! ### FastCRUDManager (crud.py) -/

/-- Class-level `_cluster_cache` of FastCRUDManager. -/
structure ClusterCache where
  data : List (String × ClusterInfo)
  timestamp : Int
  ttl : Int := 60
deriving DecidableEq

/-- Device payload of the fast create path (`FastDeviceCreate.dict()`), with
the pydantic defaults. -/
structure FastDeviceData where
  customer : String := ""
  site : String := ""
  area : String := ""
  erpReference : String := ""
  placement : String := "Internal"
  configuration : String := "Bait/Lured"
  deviceId : String := "00-00-00-00-00-00-00-00"
  deviceType : String := "rodent_sensor"
deriving DecidableEq

/-- Record type targeted for a device type in `crud.py` (anything other than
`rodent_sensor` maps to the gateway record type). -/
def targetRecTypeFor (dt : String) : String :=
  if dt = "rodent_sensor" then trapRecordType else gatewayRecordType

/-- First cluster of the mapping with the given record type. -/
def findByRecType (rt : String) (m : List (String × ClusterInfo)) :
    Option (String × ClusterInfo) :=
  m.find? (fun p => p.2.recType == rt)

/-- Outcome of `get_target_cluster_from_cache`. -/
inductive TargetRes where
  | ok (clusterId : String) (recType : String) (cacheHit : Bool)
      (info : ClusterInfo)
  | err (msg : String)
deriving DecidableEq

/-- Result record for the fast-CRUD cluster lookup: outcome, both caches it
may touch, and the remote calls issued. -/
structure TargetR where
  out : TargetRes
  cc : ClusterCache
  ops : OpsSimpleCache
  trace : List RemoteCall
deriving DecidableEq

/-- Embedding of `FastCRUDManager.get_target_cluster_from_cache`: a non-empty
cached mapping containing the record type answers immediately, ignoring the
TTL; otherwise one wildcard discovery (through the operations-module cache)
repopulates the class cache. -/
def get_target_cluster_from_cache (dd : FastDeviceData) (tok api : String)
    (cc : ClusterCache) (st : OpsSimpleCache) (w : World) : TargetR :=
  let rt := targetRecTypeFor dd.deviceType
  match (if cc.data.isEmpty then none else findByRecType rt cc.data) with
  | some (cid, info) =>
    { out := .ok cid rt true info, cc := cc, ops := st, trace := [] }
  | none =>
    let dres := wildcard_discovery_with_cache tok api st w
    match dres.out with
    | .ok v _ =>
      let cc' := { cc with data := v.clusterMap, timestamp := w.now }
      match findByRecType rt v.clusterMap with
      | some (cid, info) =>
        { out := .ok cid rt false info, cc := cc', ops := dres.cache,
          trace := dres.trace }
      | none =>
        { out := .err "No suitable cluster found", cc := cc',
          ops := dres.cache, trace := dres.trace }
    | .err _ =>
      { out := .err "No suitable cluster found", cc := cc,
        ops := dres.cache, trace := dres.trace }

/-- Device dict built by `create_device_fast`: the location vector holds only
the four leading fields, placement and configuration become separate meta
keys, and the key is `deviceId` (no guid, no status). -/
def fastNewDevice (dd : FastDeviceData) (nowIso : String) : Device :=
  { deviceId := some dd.deviceId,
    location := some [dd.customer, dd.site, dd.area, dd.erpReference],
    placement := some dd.placement,
    configuration := some dd.configuration,
    createdDate := some nowIso }

/-- Outcome of the fast CRUD operations. -/
inductive FastRes where
  | ok (device : Device) (clusterId : String) (body : ClusterDoc)
      (cacheHit : Bool)
  | err (msg : String)
deriving DecidableEq

/-- Result record for the fast CRUD operations. -/
structure FastR where
  out : FastRes
  cc : ClusterCache
  ops : OpsSimpleCache
  trace : List RemoteCall
deriving DecidableEq

/-- Embedding of `FastCRUDManager.create_device_fast`: cached cluster lookup,
direct fetch, append of the fast device dict, direct whole-document PUT. -/
def create_device_fast (dd : FastDeviceData) (tok api : String)
    (cc : ClusterCache) (st : OpsSimpleCache) (w : World) : FastR :=
  let t := get_target_cluster_from_cache dd tok api cc st w
  match t.out with
  | .err e => { out := .err e, cc := t.cc, ops := t.ops, trace := t.trace }
  | .ok cid _ hit _ =>
    match w.fetch cid with
    | none =>
      { out := .err "Failed to retrieve cluster data", cc := t.cc,
        ops := t.ops, trace := t.trace ++ [RemoteCall.fetch cid] }
    | some doc =>
      let newDev := fastNewDevice dd w.nowIso
      let body := { doc with devices := doc.devices ++ [newDev] }
      let tr := t.trace ++ [RemoteCall.fetch cid, RemoteCall.put cid]
      if w.putOk cid then
        { out := .ok newDev cid body hit, cc := t.cc, ops := t.ops,
          trace := tr }
      else
        { out := .err "Failed to update cluster with new device",
          cc := t.cc, ops := t.ops, trace := tr }

/-- Embedding of the per-device mutation inside
`FastCRUDManager.update_device_fast`: location positions 0–3 as in the guid
update, but placement and configuration go to the separate meta keys, and no
status handling exists on this path. -/
def crudApplyUpdates (u : DeviceUpdates) (nowIso : String) (d : Device) :
    Option Device :=
  let step1 : Option Device :=
    if u.customer.isSome || u.site.isSome || u.area.isSome ||
        u.erpReference.isSome then
      let loc := d.location.getD ["", "", "", ""]
      match setIdxOpt loc 0 u.customer with
      | none => none
      | some l1 =>
        match setIdxOpt l1 1 u.site with
        | none => none
        | some l2 =>
          match setIdxOpt l2 2 u.area with
          | none => none
          | some l3 =>
            match setIdxOpt l3 3 u.erpReference with
            | none => none
            | some l4 => some { d with location := some l4 }
    else some d
  match step1 with
  | none => none
  | some d1 =>
    let d2 :=
      match u.placement with
      | some pv => { d1 with placement := some pv }
      | none => d1
    let d3 :=
      match u.configuration with
      | some cv => { d2 with configuration := some cv }
      | none => d2
    some { d3 with lastModified := some nowIso }

/-- Sequential per-cluster scan of `update_device_fast`: fetch each cached
cluster in order, update the first device whose `deviceId` matches, PUT that
cluster and stop; failed fetches and non-matching clusters are skipped. -/
def updateDeviceScan (deviceId : String) (u : DeviceUpdates) (w : World) :
    List (String × ClusterInfo) → FastRes × List RemoteCall
  | [] =>
    (.err ("Device " ++ deviceId ++ " not found in any cluster"), [])
  | (cid, _) :: rest =>
    match w.fetch cid with
    | none =>
      let r := updateDeviceScan deviceId u w rest
      (r.1, RemoteCall.fetch cid :: r.2)
    | some doc =>
      match doc.devices.find? (deviceIdMatches deviceId) with
      | none =>
        let r := updateDeviceScan deviceId u w rest
        (r.1, RemoteCall.fetch cid :: r.2)
      | some d =>
        match crudApplyUpdates u w.nowIso d with
        | none =>
          (.err "Fast device update failed: list assignment index out of range",
            [RemoteCall.fetch cid])
        | some d' =>
          let devs := updateFirstBy (deviceIdMatches deviceId)
            (fun _ => d') doc.devices
          let body := { doc with devices := devs }
          if w.putOk cid then
            (.ok d' cid body false, [RemoteCall.fetch cid, RemoteCall.put cid])
          else
            (.err "Failed to update cluster",
              [RemoteCall.fetch cid, RemoteCall.put cid])

/-- Embedding of `FastCRUDManager.update_device_fast`: populate the class
cache by discovery only when it is empty, then scan the cached clusters. -/
def update_device_fast (deviceId : String) (u : DeviceUpdates)
    (tok api : String) (cc : ClusterCache) (st : OpsSimpleCache) (w : World) :
    FastR :=
  if cc.data.isEmpty then
    let dres := wildcard_discovery_with_cache tok api st w
    match dres.out with
    | .ok v _ =>
      let cc' := { cc with data := v.clusterMap, timestamp := w.now }
      let r := updateDeviceScan deviceId u w cc'.data
      { out := r.1, cc := cc', ops := dres.cache, trace := dres.trace ++ r.2 }
    | .err _ =>
      { out := .err "Failed to get cluster information", cc := cc,
        ops := dres.cache, trace := dres.trace }
  else
    let r := updateDeviceScan deviceId u w cc.data
    { out := r.1, cc := cc, ops := st, trace := r.2 }

/-- Sequential per-cluster scan of `delete_device_fast`: fetch each cached
cluster in order, pop the first device whose `deviceId` matches, PUT that
cluster and stop; failed fetches and non-matching clusters are skipped. -/
def deleteDeviceScan (deviceId : String) (w : World) :
    List (String × ClusterInfo) → FastRes × List RemoteCall
  | [] =>
    (.err ("Device " ++ deviceId ++ " not found in any cached cluster"), [])
  | (cid, _) :: rest =>
    match w.fetch cid with
    | none =>
      let r := deleteDeviceScan deviceId w rest
      (r.1, RemoteCall.fetch cid :: r.2)
    | some doc =>
      match popFirstBy (deviceIdMatches deviceId) doc.devices with
      | none =>
        let r := deleteDeviceScan deviceId w rest
        (r.1, RemoteCall.fetch cid :: r.2)
      | some (deleted, remaining) =>
        let body := { doc with devices := remaining }
        if w.putOk cid then
          (.ok deleted cid body false,
            [RemoteCall.fetch cid, RemoteCall.put cid])
        else
          (.err "Failed to update cluster after deletion",
            [RemoteCall.fetch cid, RemoteCall.put cid])

/-- Embedding of `FastCRUDManager.delete_device_fast`: populate the class
cache by discovery only when it is empty, then scan the cached clusters. -/
def delete_device_fast (deviceId tok api : String) (cc : ClusterCache)
    (st : OpsSimpleCache) (w : World) : FastR :=
  if cc.data.isEmpty then
    let dres := wildcard_discovery_with_cache tok api st w
    match dres.out with
    | .ok v _ =>
      let cc' := { cc with data := v.clusterMap, timestamp := w.now }
      let r := deleteDeviceScan deviceId w cc'.data
      { out := r.1, cc := cc', ops := dres.cache, trace := dres.trace ++ r.2 }
    | .err _ =>
      { out := .err "Failed to get cluster information", cc := cc,
        ops := dres.cache, trace := dres.trace }
  else
    let r := deleteDeviceScan deviceId w cc.data
    { out := r.1, cc := cc, ops := st, trace := r.2 }

/-! ### Mounted route handlers (routes.py) -/

/-- Route-level response: the success flag and payload the handler returns,
or the HTTPException it raises (modelled as `success := false` with the
surfaced status code). -/
structure RouteRes where
  success : Bool
  code : Nat := 200
  device : Option Device := none
  clusterId : Option String := none
  message : String := ""
deriving DecidableEq

/-- Result record for a route handler: response plus all three cache states
and the remote calls issued. -/
structure RouteR where
  res : RouteRes
  cc : ClusterCache
  ops : OpsSimpleCache
  sc : SmartCache
  trace : List RemoteCall
deriving DecidableEq

/-- Embedding of the `routes.py` create handler: fast create, then — only on
success — the surgical `update_cache_after_create` (an `addDevice` on the
targeted cluster); failure raises and leaves the smart cache untouched. -/
def create_device_optimized (dd : FastDeviceData) (tok api : String)
    (cc : ClusterCache) (st : OpsSimpleCache) (sc : SmartCache) (w : World) :
    RouteR :=
  let r := create_device_fast dd tok api cc st w
  match r.out with
  | .ok dev cid _ _ =>
    let u := update_after_operation (.create dev) cid w.now w.nowIso sc
    let res0 : RouteRes :=
      { success := true, device := some dev,
        clusterId := some cid, message := "Device created" }
    { res := res0, cc := r.cc, ops := r.ops, sc := u.2, trace := r.trace }
  | .err e =>
    let res0 : RouteRes :=
      { success := false, code := 500,
        message := "Fast device creation failed: " ++ e }
    { res := res0, cc := r.cc, ops := r.ops, sc := sc, trace := r.trace }

/-- Embedding of the `routes.py` update handler. The success branch calls
`update_cache_after_update(cluster_id, device)`, but that helper requires
three arguments (`cluster_id`, `device_id`, `device_data`); the missing
argument raises a `TypeError`, which the surrounding handler converts to an
HTTP 500 — so a successful remote write surfaces as an error and the smart
cache is never surgically updated on this path. -/
def update_device_optimized (deviceId : String) (u : DeviceUpdates)
    (tok api : String) (cc : ClusterCache) (st : OpsSimpleCache)
    (sc : SmartCache) (w : World) : RouteR :=
  let r := update_device_fast deviceId u tok api cc st w
  match r.out with
  | .ok _ _ _ _ =>
    let res0 : RouteRes :=
      { success := false, code := 500,
        message := "Fast device update error: TypeError" }
    { res := res0, cc := r.cc, ops := r.ops, sc := sc, trace := r.trace }
  | .err e =>
    let res0 : RouteRes :=
      { success := false, code := 500,
        message := "Fast device update failed: " ++ e }
    { res := res0, cc := r.cc, ops := r.ops, sc := sc, trace := r.trace }

/-- Embedding of the `routes.py` delete handler: fast delete; on success the
surgical `update_cache_after_delete` (a `removeDevice` on the targeted
cluster); a manager error whose message contains `not found` is reported as
success ("already deleted"); any other error raises. -/
def delete_device_optimized (deviceId tok api : String) (cc : ClusterCache)
    (st : OpsSimpleCache) (sc : SmartCache) (w : World) : RouteR :=
  let r := delete_device_fast deviceId tok api cc st w
  match r.out with
  | .ok deleted cid _ _ =>
    let u := update_after_operation (.delete deviceId) cid w.now w.nowIso sc
    let res0 : RouteRes :=
      { success := true, device := some deleted,
        clusterId := some cid, message := "Device deleted" }
    { res := res0, cc := r.cc, ops := r.ops, sc := u.2, trace := r.trace }
  | .err e =>
    if lcContains "not found".toList (pyLower e) then
      let res0 : RouteRes :=
        { success := true,
          message := "Device " ++ deviceId ++
            " was already deleted or does not exist" }
      { res := res0, cc := r.cc, ops := r.ops, sc := sc, trace := r.trace }
    else
      let res0 : RouteRes :=
        { success := false, code := 500,
          message := "Fast device deletion failed: " ++ e }
      { res := res0, cc := r.cc, ops := r.ops, sc := sc, trace := r.trace }

/-! ### Helper lemmas -/

theorem lookupA_setA_self {α : Type} (l : List (String × α)) (k : String)
    (v : α) : lookupA (setA l k v) k = some v := by
  induction l with
  | nil => simp [setA, lookupA]
  | cons h t ih =>
    by_cases hk : h.1 = k
    · simp [setA, hk, lookupA]
    · simp [setA, hk, lookupA, ih]
theorem lookupA_setA_ne {α : Type} (l : List (String × α)) (k k' : String)
    (v : α) (h : k' ≠ k) : lookupA (setA l k v) k' = lookupA l k' := by
  induction l with
  | nil => simp [setA, lookupA, Ne.symm h]
  | cons hd t ih =>
    by_cases hk : hd.1 = k
    · have h1 : hd.1 ≠ k' := by rw [hk]; exact Ne.symm h
      simp [setA, hk, lookupA, Ne.symm h, h1]
    · by_cases hk' : hd.1 = k'
      · simp [setA, hk, lookupA, hk', h]
      · simp [setA, hk, lookupA, hk', ih, h]
theorem lookupA_eraseA_self {α : Type} (l : List (String × α)) (k : String) :
    lookupA (eraseA l k) k = none := by
  induction l with
  | nil => simp [eraseA, lookupA]
  | cons hd t ih =>
    by_cases hk : hd.1 = k
    · simpa [eraseA, List.filter_cons, hk] using ih
    · simpa [eraseA, List.filter_cons, lookupA, hk] using ih
theorem lookupA_eraseA_ne {α : Type} (l : List (String × α)) (k k' : String)
    (h : k' ≠ k) : lookupA (eraseA l k) k' = lookupA l k' := by
  induction l with
  | nil => simp [eraseA, lookupA]
  | cons hd t ih =>
    by_cases hk : hd.1 = k
    · have h1 : hd.1 ≠ k' := by rw [hk]; exact Ne.symm h
      simpa [eraseA, List.filter_cons, hk, lookupA, h1, Ne.symm h] using ih
    · by_cases hk' : hd.1 = k'
      · simp [eraseA, List.filter_cons, lookupA, hk, hk', h]
      · simpa [eraseA, List.filter_cons, lookupA, hk, hk', h] using ih
theorem lcContains_cons (n : List Char) (x : Char) (h : List Char)
    (hh : lcContains n h = true) : lcContains n (x :: h) = true := by
  simp [lcContains, hh]
theorem lcContains_append (n pre h : List Char)
    (hh : lcContains n h = true) : lcContains n (pre ++ h) = true := by
  induction pre with
  | nil => simpa using hh
  | cons x t ih => simpa using lcContains_cons n x (t ++ h) ih
theorem pyLower_append (a b : String) :
    pyLower (a ++ b) = pyLower a ++ pyLower b := by
  simp [pyLower]

theorem popFirstBy_of_split (p : Device → Bool) (pre post : List Device)
    (d : Device) (hpre : ∀ x ∈ pre, p x = false) (hd : p d = true) :
    popFirstBy p (pre ++ d :: post) = some (d, pre ++ post) := by
  induction pre with
  | nil => simp [popFirstBy, hd]
  | cons x t ih =>
    have hx : p x = false := hpre x (by simp)
    have ht : ∀ y ∈ t, p y = false := fun y hy => hpre y (by simp [hy])
    simp [popFirstBy, hx, ih ht]

theorem updateFirstBy_of_split (p : Device → Bool) (f : Device → Device)
    (pre post : List Device) (d : Device)
    (hpre : ∀ x ∈ pre, p x = false) (hd : p d = true) :
    updateFirstBy p f (pre ++ d :: post) = pre ++ f d :: post := by
  induction pre with
  | nil => simp [updateFirstBy, hd]
  | cons x t ih =>
    have hx : p x = false := hpre x (by simp)
    have ht : ∀ y ∈ t, p y = false := fun y hy => hpre y (by simp [hy])
    simp [updateFirstBy, hx, ih ht]

theorem find?_of_split (p : Device → Bool) (pre post : List Device)
    (d : Device) (hpre : ∀ x ∈ pre, p x = false) (hd : p d = true) :
    (pre ++ d :: post).find? p = some d := by
  induction pre with
  | nil => simp [List.find?, hd]
  | cons x t ih =>
    have hx : p x = false := hpre x (by simp)
    have ht : ∀ y ∈ t, p y = false := fun y hy => hpre y (by simp [hy])
    simp [List.find?, hx, ih ht]

theorem popFirstBy_of_find? (p : Device → Bool) (l : List Device) (d : Device)
    (h : l.find? p = some d) : ∃ rest, popFirstBy p l = some (d, rest) := by
  induction l with
  | nil => simp [List.find?] at h
  | cons x t ih =>
    cases hpx : p x with
    | true =>
      have h' : x = d := by simpa [List.find?, hpx] using h
      subst h'
      exact ⟨t, by simp [popFirstBy, hpx]⟩
    | false =>
      have h' : t.find? p = some d := by simpa [List.find?, hpx] using h
      obtain ⟨rest, hr⟩ := ih h'
      exact ⟨x :: rest, by simp [popFirstBy, hpx, hr]⟩

theorem findSome?_eq_none_of_forall {α β : Type} (l : List α)
    (f : α → Option β) (h : ∀ x ∈ l, f x = none) : l.findSome? f = none := by
  induction l with
  | nil => simp
  | cons x t ih =>
    have hx : f x = none := h x (by simp)
    have ht : ∀ y ∈ t, f y = none := fun y hy => h y (by simp [hy])
    simp [List.findSome?, hx, ih ht]

theorem findSome?_isSome_of_mem {α β : Type} (l : List α) (f : α → Option β)
    (x : α) (hx : x ∈ l) (y : β) (hf : f x = some y) :
    ∃ z, l.findSome? f = some z := by
  induction l with
  | nil => simp at hx
  | cons a t ih =>
    cases hfa : f a with
    | some b => exact ⟨b, by simp [List.findSome?, hfa]⟩
    | none =>
      rcases List.mem_cons.mp hx with h | h
      · rw [h] at hf; rw [hfa] at hf; cases hf
      · obtain ⟨z, hz⟩ := ih h
        exact ⟨z, by simp [List.findSome?, hfa, hz]⟩

theorem searchCluster_elim (g : String) (info : ClusterInfo) (w : World)
    (d : Device) (i : ClusterInfo) (dc : ClusterDoc)
    (h : searchCluster g info w = some (d, i, dc)) :
    i = info ∧ w.fetch info.clusterId = some dc ∧
      dc.devices.find? (guidMatches g) = some d := by
  cases hf : w.fetch info.clusterId with
  | none => simp [searchCluster, hf] at h
  | some doc =>
    simp only [searchCluster, hf] at h
    cases hfd : doc.devices.find? (guidMatches g) with
    | none => rw [hfd] at h; simp at h
    | some d0 =>
      rw [hfd] at h
      simp only [Option.map_some', Option.some.injEq, Prod.mk.injEq] at h
      obtain ⟨h1, h2, h3⟩ := h
      subst h1
      subst h2
      subst h3
      exact ⟨rfl, rfl, hfd⟩

theorem searchClusters_elim (g : String) (m : List (String × ClusterInfo))
    (w : World) (d : Device) (i : ClusterInfo) (dc : ClusterDoc)
    (h : searchClusters g m w = some (d, i, dc)) :
    w.fetch i.clusterId = some dc ∧
      dc.devices.find? (guidMatches g) = some d := by
  induction m with
  | nil => simp [searchClusters] at h
  | cons p t ih =>
    simp only [searchClusters, List.findSome?_cons] at h
    cases hp : searchCluster g p.2 w with
    | some r =>
      rw [hp] at h
      have hr : searchCluster g p.2 w = some (d, i, dc) := by
        rw [hp]; simpa using h
      obtain ⟨h1, h2, h3⟩ := searchCluster_elim g p.2 w d i dc hr
      subst h1
      exact ⟨h2, h3⟩
    | none =>
      rw [hp] at h
      exact ih (by simpa [searchClusters] using h)

theorem searchClusters_guid (g : String) (m : List (String × ClusterInfo))
    (w : World) (d : Device) (i : ClusterInfo) (dc : ClusterDoc)
    (h : searchClusters g m w = some (d, i, dc)) : guidMatches g d = true := by
  obtain ⟨_, hfd⟩ := searchClusters_elim g m w d i dc h
  exact List.find?_some hfd

theorem add_frame_clusters (sc : SmartCache) (c c' : String) (d : Device)
    (now : Int) (h : c' ≠ c) :
    lookupA (add_device_to_cache c d now sc).2.deviceData.clusters c' =
      lookupA sc.deviceData.clusters c' := by
  cases hcl : lookupA sc.deviceData.clusters c with
  | none => simp [add_device_to_cache, hcl]
  | some doc => simp [add_device_to_cache, hcl, lookupA_setA_ne _ _ _ _ h]

theorem add_frame_timestamps (sc : SmartCache) (c c' : String) (d : Device)
    (now : Int) (h : c' ≠ c) :
    lookupA (add_device_to_cache c d now sc).2.deviceData.timestamps c' =
      lookupA sc.deviceData.timestamps c' := by
  cases hcl : lookupA sc.deviceData.clusters c with
  | none => simp [add_device_to_cache, hcl]
  | some doc => simp [add_device_to_cache, hcl, lookupA_setA_ne _ _ _ _ h]

theorem upd_frame_clusters (sc : SmartCache) (c c' did : String)
    (p : DevicePatch) (now : Int) (iso : String) (h : c' ≠ c) :
    lookupA (update_device_in_cache c did p now iso sc).2.deviceData.clusters c' =
      lookupA sc.deviceData.clusters c' := by
  cases hcl : lookupA sc.deviceData.clusters c with
  | none => simp [update_device_in_cache, hcl]
  | some doc =>
    by_cases hf : (doc.devices.find? (deviceIdMatches did)).isSome
    · simp [update_device_in_cache, hcl, hf, lookupA_setA_ne _ _ _ _ h]
    · simp [update_device_in_cache, hcl, hf]

theorem upd_frame_timestamps (sc : SmartCache) (c c' did : String)
    (p : DevicePatch) (now : Int) (iso : String) (h : c' ≠ c) :
    lookupA (update_device_in_cache c did p now iso sc).2.deviceData.timestamps c' =
      lookupA sc.deviceData.timestamps c' := by
  cases hcl : lookupA sc.deviceData.clusters c with
  | none => simp [update_device_in_cache, hcl]
  | some doc =>
    by_cases hf : (doc.devices.find? (deviceIdMatches did)).isSome
    · simp [update_device_in_cache, hcl, hf, lookupA_setA_ne _ _ _ _ h]
    · simp [update_device_in_cache, hcl, hf]

theorem rem_frame_clusters (sc : SmartCache) (c c' did : String) (now : Int)
    (h : c' ≠ c) :
    lookupA (remove_device_from_cache c did now sc).2.deviceData.clusters c' =
      lookupA sc.deviceData.clusters c' := by
  cases hcl : lookupA sc.deviceData.clusters c with
  | none => simp [remove_device_from_cache, hcl]
  | some doc =>
    cases hp : popFirstBy (deviceIdMatches did) doc.devices with
    | none => simp [remove_device_from_cache, hcl, hp]
    | some r =>
      simp [remove_device_from_cache, hcl, hp, lookupA_setA_ne _ _ _ _ h]

theorem rem_frame_timestamps (sc : SmartCache) (c c' did : String) (now : Int)
    (h : c' ≠ c) :
    lookupA (remove_device_from_cache c did now sc).2.deviceData.timestamps c' =
      lookupA sc.deviceData.timestamps c' := by
  cases hcl : lookupA sc.deviceData.clusters c with
  | none => simp [remove_device_from_cache, hcl]
  | some doc =>
    cases hp : popFirstBy (deviceIdMatches did) doc.devices with
    | none => simp [remove_device_from_cache, hcl, hp]
    | some r =>
      simp [remove_device_from_cache, hcl, hp, lookupA_setA_ne _ _ _ _ h]

theorem add_discovery_unchanged (sc : SmartCache) (c : String) (d : Device)
    (now : Int) :
    (add_device_to_cache c d now sc).2.discovery = sc.discovery := by
  cases hcl : lookupA sc.deviceData.clusters c with
  | none => simp [add_device_to_cache, hcl]
  | some doc => simp [add_device_to_cache, hcl]

theorem rem_discovery_unchanged (sc : SmartCache) (c did : String)
    (now : Int) :
    (remove_device_from_cache c did now sc).2.discovery = sc.discovery := by
  cases hcl : lookupA sc.deviceData.clusters c with
  | none => simp [remove_device_from_cache, hcl]
  | some doc =>
    cases hp : popFirstBy (deviceIdMatches did) doc.devices with
    | none => simp [remove_device_from_cache, hcl, hp]
    | some r => simp [remove_device_from_cache, hcl, hp]

theorem deleteDeviceScan_notFound (deviceId : String) (w : World)
    (m : List (String × ClusterInfo))
    (h : ∀ p ∈ m, ∀ doc, w.fetch p.1 = some doc →
      popFirstBy (deviceIdMatches deviceId) doc.devices = none) :
    deleteDeviceScan deviceId w m =
      (.err ("Device " ++ deviceId ++ " not found in any cached cluster"),
        m.map (fun p => RemoteCall.fetch p.1)) := by
  induction m with
  | nil => simp [deleteDeviceScan]
  | cons p t ih =>
    have ht : ∀ q ∈ t, ∀ doc, w.fetch q.1 = some doc →
        popFirstBy (deviceIdMatches deviceId) doc.devices = none :=
      fun q hq => h q (by simp [hq])
    cases hf : w.fetch p.1 with
    | none => simp [deleteDeviceScan, hf, ih ht]
    | some doc =>
      have hp : popFirstBy (deviceIdMatches deviceId) doc.devices = none :=
        h p (by simp) doc hf
      simp [deleteDeviceScan, hf, hp, ih ht]

theorem notFound_in_delete_msg (deviceId : String) :
    lcContains "not found".toList
      (pyLower ("Device " ++ deviceId ++
        " not found in any cached cluster")) = true := by
  have hbase : lcContains "not found".toList
      (pyLower " not found in any cached cluster") = true := by decide
  have hsplit : pyLower ("Device " ++ deviceId ++
      " not found in any cached cluster") =
      pyLower ("Device " ++ deviceId) ++
        pyLower " not found in any cached cluster" :=
    pyLower_append _ _
  rw [hsplit]
  exact lcContains_append _ _ _ hbase


theorem getTarget_cache_hit (dd : FastDeviceData) (tok api : String)
    (cc : ClusterCache) (st : OpsSimpleCache) (w : World) (cid : String)
    (info : ClusterInfo)
    (hfind : findByRecType (targetRecTypeFor dd.deviceType) cc.data =
      some (cid, info)) :
    get_target_cluster_from_cache dd tok api cc st w =
      { out := .ok cid (targetRecTypeFor dd.deviceType) true info,
        cc := cc, ops := st, trace := [] } := by
  have hne : cc.data.isEmpty = false := by
    cases hd : cc.data with
    | nil => rw [hd] at hfind; simp [findByRecType] at hfind
    | cons a t => simp
  simp [get_target_cluster_from_cache, hne, hfind]



/-! ### Claim theorems -/

/-- C9: for every cache state and every key whose stored entry has age
greater than its TTL, `SimpleCache.get` returns a miss (`none`) and deletes
that entry from the underlying store, so a read of an expired entry is not
state-preserving and never returns the expired data. -/
theorem c9_ttl_get_expired {α : Type} [DecidableEq α] (c : SimpleCache α)
    (k : String) (now : Int) (e : CacheEntry α)
    (hl : lookupA c.entries k = some e)
    (hexp : now - e.timestamp > e.ttl) :
    (SimpleCache.get now k c).1 = none ∧
    (SimpleCache.get now k c).2.entries = eraseA c.entries k ∧
    lookupA (SimpleCache.get now k c).2.entries k = none := by
  have hb : e.is_expired now = true := by
    simp [CacheEntry.is_expired]
    exact hexp
  refine ⟨?_, ?_, ?_⟩ <;>
    simp [SimpleCache.get, hl, hb, lookupA_eraseA_self]

/-- Witness for C9 at a concrete expired entry. -/
theorem c9_ttl_get_expired_witness :
    (SimpleCache.get 10 "k"
      (⟨[("k", ⟨"v", 0, 5⟩)]⟩ : SimpleCache String)).1 = none ∧
    (SimpleCache.get 10 "k"
      (⟨[("k", ⟨"v", 0, 5⟩)]⟩ : SimpleCache String)).2.entries =
      eraseA [("k", ⟨"v", 0, 5⟩)] "k" ∧
    lookupA (SimpleCache.get 10 "k"
      (⟨[("k", ⟨"v", 0, 5⟩)]⟩ : SimpleCache String)).2.entries "k" = none :=
  c9_ttl_get_expired _ "k" 10 ⟨"v", 0, 5⟩ (by decide) (by decide)

/-- C6: for every SmartCacheManager state, targeted cluster `c` and distinct
cluster `c'`, each of `add_device_to_cache`, `update_device_in_cache` and
`remove_device_from_cache` on `c` leaves the cached document and timestamp of
`c'` unchanged. -/
theorem c6_surgical_frame (sc : SmartCache) (c c' : String) (d : Device)
    (did : String) (p : DevicePatch) (now : Int) (iso : String)
    (h : c' ≠ c) :
    lookupA (add_device_to_cache c d now sc).2.deviceData.clusters c' =
      lookupA sc.deviceData.clusters c' ∧
    lookupA (add_device_to_cache c d now sc).2.deviceData.timestamps c' =
      lookupA sc.deviceData.timestamps c' ∧
    lookupA (update_device_in_cache c did p now iso sc).2.deviceData.clusters c' =
      lookupA sc.deviceData.clusters c' ∧
    lookupA (update_device_in_cache c did p now iso sc).2.deviceData.timestamps c' =
      lookupA sc.deviceData.timestamps c' ∧
    lookupA (remove_device_from_cache c did now sc).2.deviceData.clusters c' =
      lookupA sc.deviceData.clusters c' ∧
    lookupA (remove_device_from_cache c did now sc).2.deviceData.timestamps c' =
      lookupA sc.deviceData.timestamps c' :=
  ⟨add_frame_clusters sc c c' d now h, add_frame_timestamps sc c c' d now h,
   upd_frame_clusters sc c c' did p now iso h,
   upd_frame_timestamps sc c c' did p now iso h,
   rem_frame_clusters sc c c' did now h,
   rem_frame_timestamps sc c c' did now h⟩

/-- Witness for C6 at a concrete two-cluster cache state. -/
theorem c6_surgical_frame_witness :
    lookupA (add_device_to_cache "c1" { guid := some "g" } 7
      ⟨⟨[], 0, 60⟩,
        ⟨[("c1", ⟨[], "a"⟩), ("c2", ⟨[], "b"⟩)], [("c1", 1), ("c2", 2)],
          300⟩⟩).2.deviceData.clusters "c2" =
      lookupA [("c1", (⟨[], "a"⟩ : ClusterDoc)), ("c2", ⟨[], "b"⟩)] "c2" ∧
    lookupA (add_device_to_cache "c1" { guid := some "g" } 7
      ⟨⟨[], 0, 60⟩,
        ⟨[("c1", ⟨[], "a"⟩), ("c2", ⟨[], "b"⟩)], [("c1", 1), ("c2", 2)],
          300⟩⟩).2.deviceData.timestamps "c2" =
      lookupA [("c1", (1 : Int)), ("c2", 2)] "c2" ∧
    lookupA (update_device_in_cache "c1" "d" {} 7 "T"
      ⟨⟨[], 0, 60⟩,
        ⟨[("c1", ⟨[], "a"⟩), ("c2", ⟨[], "b"⟩)], [("c1", 1), ("c2", 2)],
          300⟩⟩).2.deviceData.clusters "c2" =
      lookupA [("c1", (⟨[], "a"⟩ : ClusterDoc)), ("c2", ⟨[], "b"⟩)] "c2" ∧
    lookupA (update_device_in_cache "c1" "d" {} 7 "T"
      ⟨⟨[], 0, 60⟩,
        ⟨[("c1", ⟨[], "a"⟩), ("c2", ⟨[], "b"⟩)], [("c1", 1), ("c2", 2)],
          300⟩⟩).2.deviceData.timestamps "c2" =
      lookupA [("c1", (1 : Int)), ("c2", 2)] "c2" ∧
    lookupA (remove_device_from_cache "c1" "d" 7
      ⟨⟨[], 0, 60⟩,
        ⟨[("c1", ⟨[], "a"⟩), ("c2", ⟨[], "b"⟩)], [("c1", 1), ("c2", 2)],
          300⟩⟩).2.deviceData.clusters "c2" =
      lookupA [("c1", (⟨[], "a"⟩ : ClusterDoc)), ("c2", ⟨[], "b"⟩)] "c2" ∧
    lookupA (remove_device_from_cache "c1" "d" 7
      ⟨⟨[], 0, 60⟩,
        ⟨[("c1", ⟨[], "a"⟩), ("c2", ⟨[], "b"⟩)], [("c1", 1), ("c2", 2)],
          300⟩⟩).2.deviceData.timestamps "c2" =
      lookupA [("c1", (1 : Int)), ("c2", 2)] "c2" :=
  c6_surgical_frame
    ⟨⟨[], 0, 60⟩,
      ⟨[("c1", ⟨[], "a"⟩), ("c2", ⟨[], "b"⟩)], [("c1", 1), ("c2", 2)], 300⟩⟩
    "c1" "c2" { guid := some "g" } "d" {} 7 "T" (by decide)

/-- C10: when the device list of a cluster contains several devices with the same
identifier, the deletion loop shared by `delete_device_fast`
(`popFirstBy`), the surgical `remove_device_from_cache` and the surgical
`update_device_in_cache` each affect only the first matching device in list
order; every later duplicate is still present and unchanged. -/
theorem c10_first_match_only (sc : SmartCache) (c did : String)
    (pre post : List Device) (d : Device) (doc : ClusterDoc)
    (p : DevicePatch) (now : Int) (iso : String)
    (hdoc : lookupA sc.deviceData.clusters c = some doc)
    (hdevs : doc.devices = pre ++ d :: post)
    (hpre : ∀ x ∈ pre, deviceIdMatches did x = false)
    (hd : deviceIdMatches did d = true) :
    popFirstBy (deviceIdMatches did) doc.devices = some (d, pre ++ post) ∧
    (remove_device_from_cache c did now sc).1 = some d ∧
    lookupA (remove_device_from_cache c did now sc).2.deviceData.clusters c =
      some { doc with devices := pre ++ post } ∧
    lookupA (update_device_in_cache c did p now iso sc).2.deviceData.clusters c =
      some { doc with devices := pre ++ applyPatch p iso d :: post } := by
  have hpop : popFirstBy (deviceIdMatches did) doc.devices =
      some (d, pre ++ post) := by
    rw [hdevs]; exact popFirstBy_of_split _ pre post d hpre hd
  have hfind : doc.devices.find? (deviceIdMatches did) = some d := by
    rw [hdevs]; exact find?_of_split _ pre post d hpre hd
  have hupd : updateFirstBy (deviceIdMatches did) (applyPatch p iso)
      doc.devices = pre ++ applyPatch p iso d :: post := by
    rw [hdevs]; exact updateFirstBy_of_split _ _ pre post d hpre hd
  refine ⟨hpop, ?_, ?_, ?_⟩
  · simp [remove_device_from_cache, hdoc, hpop]
  · simp [remove_device_from_cache, hdoc, hpop, lookupA_setA_self]
  · simp [update_device_in_cache, hdoc, hfind, hupd, lookupA_setA_self]

/-- Witness for C10 at a cluster whose list carries a duplicate placeholder
identifier after the first match. -/
theorem c10_first_match_only_witness :
    popFirstBy (deviceIdMatches "00")
      (⟨[{ deviceId := some "00", guid := some "g1" },
         { deviceId := some "00", guid := some "g2" }], ""⟩ :
        ClusterDoc).devices =
      some ({ deviceId := some "00", guid := some "g1" },
        [] ++ [{ deviceId := some "00", guid := some "g2" }]) ∧
    (remove_device_from_cache "c1" "00" 7
      ⟨⟨[], 0, 60⟩,
        ⟨[("c1", ⟨[{ deviceId := some "00", guid := some "g1" },
            { deviceId := some "00", guid := some "g2" }], ""⟩)],
          [("c1", 1)], 300⟩⟩).1 =
      some { deviceId := some "00", guid := some "g1" } ∧
    lookupA (remove_device_from_cache "c1" "00" 7
      ⟨⟨[], 0, 60⟩,
        ⟨[("c1", ⟨[{ deviceId := some "00", guid := some "g1" },
            { deviceId := some "00", guid := some "g2" }], ""⟩)],
          [("c1", 1)], 300⟩⟩).2.deviceData.clusters "c1" =
      some { devices := [] ++ [{ deviceId := some "00", guid := some "g2" }],
             rest := "" } ∧
    lookupA (update_device_in_cache "c1" "00" { status := some "active" } 7 "T"
      ⟨⟨[], 0, 60⟩,
        ⟨[("c1", ⟨[{ deviceId := some "00", guid := some "g1" },
            { deviceId := some "00", guid := some "g2" }], ""⟩)],
          [("c1", 1)], 300⟩⟩).2.deviceData.clusters "c1" =
      some { devices := [] ++ applyPatch { status := some "active" } "T"
                 { deviceId := some "00", guid := some "g1" } ::
                 [{ deviceId := some "00", guid := some "g2" }],
             rest := "" } :=
  c10_first_match_only
    ⟨⟨[], 0, 60⟩,
      ⟨[("c1", ⟨[{ deviceId := some "00", guid := some "g1" },
          { deviceId := some "00", guid := some "g2" }], ""⟩)],
        [("c1", 1)], 300⟩⟩
    "c1" "00" [] [{ deviceId := some "00", guid := some "g2" }]
    { deviceId := some "00", guid := some "g1" }
    ⟨[{ deviceId := some "00", guid := some "g1" },
      { deviceId := some "00", guid := some "g2" }], ""⟩
    { status := some "active" } 7 "T"
    (by decide) (by decide) (by decide) (by decide)

/-- C3: a guid containing one of the recognized test/placeholder patterns is
fast-rejected by `find_device_by_guid`: a not-found result is returned
immediately, the discovery cache is untouched and no discovery or cluster
fetch call is issued (empty trace). -/
theorem c3_fast_reject (g tok api : String) (st : OpsSimpleCache) (w : World)
    (h : matchesTestPattern g = true) :
    find_device_by_guid g tok api st w =
      { out := .earlyReject ("Device with GUID " ++ g ++
          " not found (early termination: test pattern detected)"),
        cache := st, trace := [] } := by
  simp [find_device_by_guid, h]

/-- Witness for C3 at the guid `fake-123`. -/
theorem c3_fast_reject_witness :
    matchesTestPattern "fake-123" = true ∧
    find_device_by_guid "fake-123" "tok" "api" ⟨[], 300⟩
      ⟨none, fun _ => none, fun _ => false, 0, "u", "T"⟩ =
      { out := .earlyReject ("Device with GUID " ++ "fake-123" ++
          " not found (early termination: test pattern detected)"),
        cache := ⟨[], 300⟩, trace := [] } :=
  ⟨by decide,
   c3_fast_reject "fake-123" "tok" "api" ⟨[], 300⟩
     ⟨none, fun _ => none, fun _ => false, 0, "u", "T"⟩ (by decide)⟩

/-- C8: during the guid fan-out, a failed per-cluster fetch contributes no
match and never aborts the aggregate search: when discovery succeeds,
`find_device_by_guid` reports not-found exactly when every per-cluster search
settles without a match, and any cluster that does match (even alongside
failing clusters) makes the search return a found device with the requested
guid. -/
theorem c8_fanout_partial_failure (g tok api : String) (st : OpsSimpleCache)
    (w : World) (v : DiscoveryValue) (hit : Bool)
    (hg : matchesTestPattern g = false)
    (hd : (wildcard_discovery_with_cache tok api st w).out = .ok v hit) :
    ((∀ p ∈ v.clusterMap, searchCluster g p.2 w = none) →
      (find_device_by_guid g tok api st w).out =
        .notFound ("Device with GUID " ++ g ++ " not found")) ∧
    (∀ p ∈ v.clusterMap, ∀ d i dc, searchCluster g p.2 w = some (d, i, dc) →
      ∃ d' i' dc',
        (find_device_by_guid g tok api st w).out = .found d' i' dc' ∧
          guidMatches g d' = true) := by
  constructor
  · intro hall
    have hnone : searchClusters g v.clusterMap w = none :=
      findSome?_eq_none_of_forall _ _ (fun p hp => hall p hp)
    simp [find_device_by_guid, hg, hd, hnone]
  · intro p hp d i dc hsc
    obtain ⟨z, hz⟩ := findSome?_isSome_of_mem v.clusterMap
      (fun q => searchCluster g q.2 w) p hp (d, i, dc) hsc
    have hzz : searchClusters g v.clusterMap w = some z := hz
    obtain ⟨d', i', dc'⟩ := z
    refine ⟨d', i', dc', ?_, ?_⟩
    · simp [find_device_by_guid, hg, hd, hzz]
    · exact searchClusters_guid g v.clusterMap w d' i' dc' hzz

/-- Witness for C8: one failing cluster alongside one matching cluster. -/
theorem c8_fanout_partial_failure_witness :
    matchesTestPattern "real-1" = false ∧
    (∃ d' i' dc',
      (find_device_by_guid "real-1" "tok" "api"
        ⟨[("discovery:api:tok",
          ({ clusterMap :=
              [("c1", ⟨"c1", "A", trapRecordType, "rodent_sensor", 0⟩),
               ("c2", ⟨"c2", "B", trapRecordType, "rodent_sensor", 1⟩)],
             totalClusters := 2, totalDevices := 1 }, 0))], 300⟩
        ⟨none,
          fun c => if c = "c2" then
              some ⟨[{ guid := some "real-1" }], ""⟩
            else none,
          fun _ => false, 10, "u", "T"⟩).out = FindRes.found d' i' dc' ∧
        guidMatches "real-1" d' = true) :=
  ⟨by decide,
   (c8_fanout_partial_failure "real-1" "tok" "api"
      ⟨[("discovery:api:tok",
        ({ clusterMap :=
            [("c1", ⟨"c1", "A", trapRecordType, "rodent_sensor", 0⟩),
             ("c2", ⟨"c2", "B", trapRecordType, "rodent_sensor", 1⟩)],
           totalClusters := 2, totalDevices := 1 }, 0))], 300⟩
      ⟨none,
        fun c => if c = "c2" then
            some ⟨[{ guid := some "real-1" }], ""⟩
          else none,
        fun _ => false, 10, "u", "T"⟩
      { clusterMap :=
          [("c1", ⟨"c1", "A", trapRecordType, "rodent_sensor", 0⟩),
           ("c2", ⟨"c2", "B", trapRecordType, "rodent_sensor", 1⟩)],
        totalClusters := 2, totalDevices := 1 }
      true (by decide) (by decide)).2
     ("c2", ⟨"c2", "B", trapRecordType, "rodent_sensor", 1⟩) (by decide)
     { guid := some "real-1" }
     ⟨"c2", "B", trapRecordType, "rodent_sensor", 1⟩
     ⟨[{ guid := some "real-1" }], ""⟩ (by decide)⟩

/-- C5 (amended): `FastCRUDManager.get_target_cluster_from_cache` serves any
category present in a non-empty cached mapping without invoking discovery and
without touching any cache state, for every timestamp — in particular when
the TTL validity check would be false (stale-but-present tolerance). -/
theorem c5_stale_tolerated (dd : FastDeviceData) (tok api : String)
    (cc : ClusterCache) (st : OpsSimpleCache) (w : World) (cid : String)
    (info : ClusterInfo)
    (hfind : findByRecType (targetRecTypeFor dd.deviceType) cc.data =
      some (cid, info)) :
    get_target_cluster_from_cache dd tok api cc st w =
      { out := .ok cid (targetRecTypeFor dd.deviceType) true info,
        cc := cc, ops := st, trace := [] } := by
  have hne : cc.data.isEmpty = false := by
    cases hd : cc.data with
    | nil => rw [hd] at hfind; simp [findByRecType] at hfind
    | cons a t => simp
  simp [get_target_cluster_from_cache, hne, hfind]

/-- Witness for the amended C5 at a stale-but-present mapping (timestamp far
older than the 60-second TTL). -/
theorem c5_stale_tolerated_witness :
    findByRecType (targetRecTypeFor "rodent_sensor")
      [("c1", ⟨"c1", "A", trapRecordType, "rodent_sensor", 1⟩)] =
      some ("c1", ⟨"c1", "A", trapRecordType, "rodent_sensor", 1⟩) ∧
    get_target_cluster_from_cache {} "tok" "api"
      ⟨[("c1", ⟨"c1", "A", trapRecordType, "rodent_sensor", 1⟩)], 0, 60⟩
      ⟨[], 300⟩ ⟨none, fun _ => none, fun _ => false, 1000000, "u", "T"⟩ =
      { out := .ok "c1" (targetRecTypeFor "rodent_sensor") true
          ⟨"c1", "A", trapRecordType, "rodent_sensor", 1⟩,
        cc := ⟨[("c1", ⟨"c1", "A", trapRecordType, "rodent_sensor", 1⟩)],
          0, 60⟩,
        ops := ⟨[], 300⟩, trace := [] } :=
  ⟨by decide,
   c5_stale_tolerated {} "tok" "api"
     ⟨[("c1", ⟨"c1", "A", trapRecordType, "rodent_sensor", 1⟩)], 0, 60⟩
     ⟨[], 300⟩ ⟨none, fun _ => none, fun _ => false, 1000000, "u", "T"⟩
     "c1" ⟨"c1", "A", trapRecordType, "rodent_sensor", 1⟩ (by decide)⟩

/-- C5 counterexample: `SmartCacheManager.get_cluster_for_device_type`
refutes the claim as stated — at a state whose mapping is non-empty and
contains the requested category but whose age (100) exceeds the TTL (60), it
returns `none` instead of the cached cluster info. -/
theorem c5_smart_ttl_cex :
    [("c1", (⟨"c1", "A", trapRecordType, "rodent_sensor", 1⟩ : ClusterInfo))]
      ≠ [] ∧
    findByRecType trapRecordType
      [("c1", ⟨"c1", "A", trapRecordType, "rodent_sensor", 1⟩)] =
      some ("c1", ⟨"c1", "A", trapRecordType, "rodent_sensor", 1⟩) ∧
    get_cluster_for_device_type "rodent_sensor" 100
      ⟨⟨[("c1", ⟨"c1", "A", trapRecordType, "rodent_sensor", 1⟩)], 0, 60⟩,
        ⟨[], [], 300⟩⟩ = none := by
  refine ⟨by decide, by decide, ?_⟩
  decide

/-- C7 (amended): the canonical create (`create_device` of `operations.py`)
for the 6-field sensor category with placement and configuration omitted
(pydantic defaults) appends a device whose location vector is exactly
`[customer, site, area, erp_reference, "Internal", "Bait/Lured"]`; the
fast-path create keeps only the four leading fields in the location vector
(see the counterexample). -/
theorem c7_canonical_create_location (c s a r tok api : String)
    (st : OpsSimpleCache) (w : World) (v : DiscoveryValue) (hit : Bool)
    (cid : String) (target : ClusterInfo) (doc : ClusterDoc)
    (hd : (wildcard_discovery_with_cache tok api st w).out = .ok v hit)
    (hfind : v.clusterMap.find? (fun p => p.2.recType == trapRecordType) =
      some (cid, target))
    (hfetch : w.fetch target.clusterId = some doc)
    (hput : w.putOk target.clusterId = true) :
    (create_device { customer := c, site := s, area := a, erpReference := r }
      tok api st w).out =
      OpRes.ok
        { id := some "00-00-00-00-00-00-00-00",
          location := some [c, s, a, r, "Internal", "Bait/Lured"],
          status := some "pending",
          guid := some ("erp-device-" ++ w.newGuid) }
        target.clusterId
        { doc with devices := doc.devices ++
            [{ id := some "00-00-00-00-00-00-00-00",
               location := some [c, s, a, r, "Internal", "Bait/Lured"],
               status := some "pending",
               guid := some ("erp-device-" ++ w.newGuid) }] } := by
  have hne : ¬("rodent_sensor" = "gateway") := by decide
  simp [create_device, hne, hd, hfind, hfetch, hput]

/-- Witness for the amended C7 at the concrete scenario of §8 of the spec. -/
theorem c7_canonical_create_location_witness :
    (wildcard_discovery_with_cache "tok" "api"
      ⟨[("discovery:api:tok",
        ({ clusterMap := [("c1", ⟨"c1", "A", trapRecordType,
            "rodent_sensor", 0⟩)],
           totalClusters := 1, totalDevices := 0 }, 0))], 300⟩
      ⟨none, fun c => if c = "c1" then some ⟨[], "x"⟩ else none,
        fun _ => true, 10, "u-1", "T"⟩).out =
      DiscOutcome.ok
        { clusterMap := [("c1", ⟨"c1", "A", trapRecordType,
            "rodent_sensor", 0⟩)],
          totalClusters := 1, totalDevices := 0 } true ∧
    (create_device
      { customer := "Acme", site := "S1", area := "Zone1",
        erpReference := "R1" } "tok" "api"
      ⟨[("discovery:api:tok",
        ({ clusterMap := [("c1", ⟨"c1", "A", trapRecordType,
            "rodent_sensor", 0⟩)],
           totalClusters := 1, totalDevices := 0 }, 0))], 300⟩
      ⟨none, fun c => if c = "c1" then some ⟨[], "x"⟩ else none,
        fun _ => true, 10, "u-1", "T"⟩).out =
      OpRes.ok
        { id := some "00-00-00-00-00-00-00-00",
          location := some ["Acme", "S1", "Zone1", "R1", "Internal",
            "Bait/Lured"],
          status := some "pending", guid := some ("erp-device-" ++ "u-1") }
        "c1"
        { devices := [] ++
            [{ id := some "00-00-00-00-00-00-00-00",
               location := some ["Acme", "S1", "Zone1", "R1", "Internal",
                 "Bait/Lured"],
               status := some "pending",
               guid := some ("erp-device-" ++ "u-1") }],
          rest := "x" } :=
  ⟨by decide,
   c7_canonical_create_location "Acme" "S1" "Zone1" "R1" "tok" "api"
     ⟨[("discovery:api:tok",
       ({ clusterMap := [("c1", ⟨"c1", "A", trapRecordType,
           "rodent_sensor", 0⟩)],
          totalClusters := 1, totalDevices := 0 }, 0))], 300⟩
     ⟨none, fun c => if c = "c1" then some ⟨[], "x"⟩ else none,
       fun _ => true, 10, "u-1", "T"⟩
     { clusterMap := [("c1", ⟨"c1", "A", trapRecordType,
         "rodent_sensor", 0⟩)],
       totalClusters := 1, totalDevices := 0 }
     true "c1" ⟨"c1", "A", trapRecordType, "rodent_sensor", 0⟩ ⟨[], "x"⟩
     (by decide) (by decide) (by decide) (by decide)⟩

/-- C7 counterexample: the fast create path (`create_device_fast`) refutes
the claim as stated — for the same 6-field-category input it appends a device
whose location vector has only the four leading fields, with placement and
configuration stored as separate meta keys. -/
theorem c7_fast_create_cex :
    (create_device_fast
      { customer := "Acme", site := "S1", area := "Zone1",
        erpReference := "R1" } "tok" "api"
      ⟨[("c1", ⟨"c1", "A", trapRecordType, "rodent_sensor", 0⟩)], 0, 60⟩
      ⟨[], 300⟩
      ⟨none, fun c => if c = "c1" then some ⟨[], ""⟩ else none,
        fun _ => true, 10, "u", "T"⟩).out =
      FastRes.ok
        { deviceId := some "00-00-00-00-00-00-00-00",
          location := some ["Acme", "S1", "Zone1", "R1"],
          placement := some "Internal", configuration := some "Bait/Lured",
          createdDate := some "T" }
        "c1"
        ⟨[{ deviceId := some "00-00-00-00-00-00-00-00",
            location := some ["Acme", "S1", "Zone1", "R1"],
            placement := some "Internal",
            configuration := some "Bait/Lured",
            createdDate := some "T" }], ""⟩ true ∧
    some ["Acme", "S1", "Zone1", "R1"] ≠
      some ["Acme", "S1", "Zone1", "R1", "Internal", "Bait/Lured"] := by
  refine ⟨?_, by decide⟩
  decide

/-- C4 (amended): when the whole-document write-back of a guid-based update
or delete fails, the error is surfaced and the discovery cache is left
exactly as it was whenever it already held a fresh entry for the request; no
surgical update and no clear happens, so no cache ever reflects the failed
write (the only deviation from the claim as stated is that a cold or stale
discovery cache is repopulated by the successful discovery performed during
lookup — see the counterexample). -/
theorem c4_failed_write_untouched (g : String) (u : DeviceUpdates)
    (tok api : String) (st : OpsSimpleCache) (w : World)
    (v : DiscoveryValue) (ts : Int) (d : Device) (info : ClusterInfo)
    (doc : ClusterDoc)
    (hl : lookupA st.entries (discoveryKey tok api) = some (v, ts))
    (hfresh : w.now - ts < st.ttl)
    (hg : matchesTestPattern g = false)
    (hs : searchClusters g v.clusterMap w = some (d, info, doc))
    (hput : w.putOk info.clusterId = false) :
    ((update_device_by_guid g u tok api st w).cache = st ∧
      ∃ m, (update_device_by_guid g u tok api st w).out = OpRes.failed m) ∧
    ((delete_device_by_guid g tok api st w).cache = st ∧
      ∃ m, (delete_device_by_guid g tok api st w).out = OpRes.failed m) := by
  have hw : wildcard_discovery_with_cache tok api st w =
      { out := .ok v true, cache := st, trace := [] } := by
    simp [wildcard_discovery_with_cache, OpsSimpleCache.get, hl, hfresh]
  have hf : find_device_by_guid g tok api st w =
      { out := .found d info doc, cache := st,
        trace := [] ++ v.clusterMap.map
          (fun p => RemoteCall.fetch p.2.clusterId) } := by
    simp [find_device_by_guid, hg, hw, hs]
  constructor
  · cases hap : opsApplyUpdates u w.nowIso d with
    | none =>
      exact ⟨by simp [update_device_by_guid, hf, hap],
        "GUID update failed: list assignment index out of range",
        by simp [update_device_by_guid, hf, hap]⟩
    | some d' =>
      exact ⟨by simp [update_device_by_guid, hf, hap, hput],
        "Cluster update failed: HTTP error",
        by simp [update_device_by_guid, hf, hap, hput]⟩
  · obtain ⟨_, hfd⟩ := searchClusters_elim g v.clusterMap w d info doc hs
    obtain ⟨rest, hpop⟩ := popFirstBy_of_find? (guidMatches g)
      doc.devices d hfd
    exact ⟨by simp [delete_device_by_guid, hf, hpop, hput],
      "Cluster update failed: HTTP error",
      by simp [delete_device_by_guid, hf, hpop, hput]⟩

/-- Witness for the amended C4 at a fresh cache entry and a rejected PUT. -/
theorem c4_failed_write_untouched_witness :
    ((update_device_by_guid "g-1" { status := some "active" } "tok" "api"
      ⟨[("discovery:api:tok",
        ({ clusterMap := [("c1", ⟨"c1", "A", trapRecordType,
            "rodent_sensor", 1⟩)],
           totalClusters := 1, totalDevices := 1 }, 0))], 300⟩
      ⟨none, fun c => if c = "c1" then
          some ⟨[{ guid := some "g-1" }], ""⟩ else none,
        fun _ => false, 10, "u", "T"⟩).cache =
      ⟨[("discovery:api:tok",
        ({ clusterMap := [("c1", ⟨"c1", "A", trapRecordType,
            "rodent_sensor", 1⟩)],
           totalClusters := 1, totalDevices := 1 }, 0))], 300⟩ ∧
     ∃ m, (update_device_by_guid "g-1" { status := some "active" } "tok" "api"
      ⟨[("discovery:api:tok",
        ({ clusterMap := [("c1", ⟨"c1", "A", trapRecordType,
            "rodent_sensor", 1⟩)],
           totalClusters := 1, totalDevices := 1 }, 0))], 300⟩
      ⟨none, fun c => if c = "c1" then
          some ⟨[{ guid := some "g-1" }], ""⟩ else none,
        fun _ => false, 10, "u", "T"⟩).out = OpRes.failed m) ∧
    ((delete_device_by_guid "g-1" "tok" "api"
      ⟨[("discovery:api:tok",
        ({ clusterMap := [("c1", ⟨"c1", "A", trapRecordType,
            "rodent_sensor", 1⟩)],
           totalClusters := 1, totalDevices := 1 }, 0))], 300⟩
      ⟨none, fun c => if c = "c1" then
          some ⟨[{ guid := some "g-1" }], ""⟩ else none,
        fun _ => false, 10, "u", "T"⟩).cache =
      ⟨[("discovery:api:tok",
        ({ clusterMap := [("c1", ⟨"c1", "A", trapRecordType,
            "rodent_sensor", 1⟩)],
           totalClusters := 1, totalDevices := 1 }, 0))], 300⟩ ∧
     ∃ m, (delete_device_by_guid "g-1" "tok" "api"
      ⟨[("discovery:api:tok",
        ({ clusterMap := [("c1", ⟨"c1", "A", trapRecordType,
            "rodent_sensor", 1⟩)],
           totalClusters := 1, totalDevices := 1 }, 0))], 300⟩
      ⟨none, fun c => if c = "c1" then
          some ⟨[{ guid := some "g-1" }], ""⟩ else none,
        fun _ => false, 10, "u", "T"⟩).out = OpRes.failed m) :=
  c4_failed_write_untouched "g-1" { status := some "active" } "tok" "api"
    ⟨[("discovery:api:tok",
      ({ clusterMap := [("c1", ⟨"c1", "A", trapRecordType,
          "rodent_sensor", 1⟩)],
         totalClusters := 1, totalDevices := 1 }, 0))], 300⟩
    ⟨none, fun c => if c = "c1" then
        some ⟨[{ guid := some "g-1" }], ""⟩ else none,
      fun _ => false, 10, "u", "T"⟩
    { clusterMap := [("c1", ⟨"c1", "A", trapRecordType,
        "rodent_sensor", 1⟩)],
      totalClusters := 1, totalDevices := 1 }
    0 { guid := some "g-1" } ⟨"c1", "A", trapRecordType, "rodent_sensor", 1⟩
    ⟨[{ guid := some "g-1" }], ""⟩
    (by decide) (by decide) (by decide) (by decide) (by decide)

/-- C4 counterexample: starting from an empty discovery cache, an update
whose write-back fails still mutates the discovery cache — the lookup step
populates it — so the claim that a failed write mutates neither cache is
false as stated. -/
theorem c4_failed_write_cex :
    (⟨[], 300⟩ : OpsSimpleCache).entries = [] ∧
    (update_device_by_guid "g-1" { status := some "active" } "tok" "api"
      ⟨[], 300⟩
      ⟨some [⟨"c1", trapRecordType, "C", [{ guid := some "g-1" }]⟩],
        fun c => if c = "c1" then
          some ⟨[{ guid := some "g-1" }], ""⟩ else none,
        fun _ => false, 5, "u", "T"⟩).out =
      OpRes.failed "Cluster update failed: HTTP error" ∧
    (update_device_by_guid "g-1" { status := some "active" } "tok" "api"
      ⟨[], 300⟩
      ⟨some [⟨"c1", trapRecordType, "C", [{ guid := some "g-1" }]⟩],
        fun c => if c = "c1" then
          some ⟨[{ guid := some "g-1" }], ""⟩ else none,
        fun _ => false, 5, "u", "T"⟩).cache.entries ≠ [] := by
  refine ⟨by decide, ?_, ?_⟩ <;> decide

/-- C1 (amended): a delete through the delete endpoint for an identifier
absent from every cluster is reported as success (the handler maps the
manager's not-found error to an "already deleted" success response); no PUT
is issued, the smart document cache and the discovery caches are left exactly
as they were whenever the cluster-mapping cache is already populated (a cold
mapping cache is instead populated by the lookup — see the counterexample,
and an error is reported when that discovery fails). -/
theorem c1_absent_delete (deviceId tok api : String) (cc : ClusterCache)
    (st : OpsSimpleCache) (sc : SmartCache) (w : World)
    (hne : cc.data ≠ [])
    (habsent : ∀ p ∈ cc.data, ∀ doc, w.fetch p.1 = some doc →
      popFirstBy (deviceIdMatches deviceId) doc.devices = none) :
    delete_device_optimized deviceId tok api cc st sc w =
      { res := { success := true,
                 message := "Device " ++ deviceId ++
                   " was already deleted or does not exist" },
        cc := cc, ops := st, sc := sc,
        trace := cc.data.map (fun p => RemoteCall.fetch p.1) } ∧
    ∀ c, RemoteCall.put c ∉
      (delete_device_optimized deviceId tok api cc st sc w).trace := by
  have hni : cc.data.isEmpty = false := by
    cases hd : cc.data with
    | nil => exact absurd hd hne
    | cons a t => simp
  have hscan := deleteDeviceScan_notFound deviceId w cc.data habsent
  have hfast : delete_device_fast deviceId tok api cc st w =
      { out := .err ("Device " ++ deviceId ++
          " not found in any cached cluster"),
        cc := cc, ops := st,
        trace := cc.data.map (fun p => RemoteCall.fetch p.1) } := by
    simp [delete_device_fast, hni, hscan]
  have hmsg := notFound_in_delete_msg deviceId
  have h1 : delete_device_optimized deviceId tok api cc st sc w =
      { res := { success := true,
                 message := "Device " ++ deviceId ++
                   " was already deleted or does not exist" },
        cc := cc, ops := st, sc := sc,
        trace := cc.data.map (fun p => RemoteCall.fetch p.1) } := by
    unfold delete_device_optimized
    rw [hfast]
    simp
    simpa using hmsg
  refine ⟨h1, ?_⟩
  intro c hc
  rw [h1] at hc
  simp at hc

/-- Witness for the amended C1: a populated mapping cache and a store in
which no device carries the requested identifier. -/
theorem c1_absent_delete_witness :
    delete_device_optimized "gone-1" "tok" "api"
      ⟨[("c1", ⟨"c1", "A", trapRecordType, "rodent_sensor", 1⟩)], 0, 60⟩
      ⟨[], 300⟩ ⟨⟨[], 0, 60⟩, ⟨[], [], 300⟩⟩
      ⟨none, fun c => if c = "c1" then
          some ⟨[{ deviceId := some "other" }], ""⟩ else none,
        fun _ => true, 10, "u", "T"⟩ =
      { res := { success := true,
                 message := "Device " ++ "gone-1" ++
                   " was already deleted or does not exist" },
        cc := ⟨[("c1", ⟨"c1", "A", trapRecordType, "rodent_sensor", 1⟩)],
          0, 60⟩,
        ops := ⟨[], 300⟩, sc := ⟨⟨[], 0, 60⟩, ⟨[], [], 300⟩⟩,
        trace := List.map (fun p : String × ClusterInfo => RemoteCall.fetch p.1)
          [("c1", ⟨"c1", "A", trapRecordType, "rodent_sensor", 1⟩)] } ∧
    ∀ c, RemoteCall.put c ∉
      (delete_device_optimized "gone-1" "tok" "api"
        ⟨[("c1", ⟨"c1", "A", trapRecordType, "rodent_sensor", 1⟩)], 0, 60⟩
        ⟨[], 300⟩ ⟨⟨[], 0, 60⟩, ⟨[], [], 300⟩⟩
        ⟨none, fun c => if c = "c1" then
            some ⟨[{ deviceId := some "other" }], ""⟩ else none,
          fun _ => true, 10, "u", "T"⟩).trace :=
  c1_absent_delete "gone-1" "tok" "api"
    ⟨[("c1", ⟨"c1", "A", trapRecordType, "rodent_sensor", 1⟩)], 0, 60⟩
    ⟨[], 300⟩ ⟨⟨[], 0, 60⟩, ⟨[], [], 300⟩⟩
    ⟨none, fun c => if c = "c1" then
        some ⟨[{ deviceId := some "other" }], ""⟩ else none,
      fun _ => true, 10, "u", "T"⟩
    (by decide) (by decide)

/-- C1 counterexample: with a cold (empty) cluster-mapping cache, deleting an
absent identifier is reported as success but the mapping cache is populated
as a side effect, so the claim that no cache state changes is false as
stated. -/
theorem c1_absent_delete_cex :
    (⟨[], 0, 60⟩ : ClusterCache).data = [] ∧
    (delete_device_optimized "gone-1" "tok" "api" ⟨[], 0, 60⟩ ⟨[], 300⟩
      ⟨⟨[], 0, 60⟩, ⟨[], [], 300⟩⟩
      ⟨some [⟨"c1", trapRecordType, "C", [{ deviceId := some "other" }]⟩],
        fun c => if c = "c1" then
          some ⟨[{ deviceId := some "other" }], ""⟩ else none,
        fun _ => true, 5, "u", "T"⟩).res.success = true ∧
    (delete_device_optimized "gone-1" "tok" "api" ⟨[], 0, 60⟩ ⟨[], 300⟩
      ⟨⟨[], 0, 60⟩, ⟨[], [], 300⟩⟩
      ⟨some [⟨"c1", trapRecordType, "C", [{ deviceId := some "other" }]⟩],
        fun c => if c = "c1" then
          some ⟨[{ deviceId := some "other" }], ""⟩ else none,
        fun _ => true, 5, "u", "T"⟩).cc.data ≠ [] := by
  refine ⟨by decide, ?_, ?_⟩ <;> decide

/-- C2 (amended): in the mounted route pipeline, a successful create or
delete write-back is followed by exactly the matching surgical smart-cache
mutation (`add_device_to_cache` / `remove_device_from_cache` on the targeted
cluster only) with the discovery state and the cached documents of all other
clusters unchanged, and with a populated cluster-mapping cache the mapping
caches are untouched; the guid-based operations of `operations.py` instead
clear the discovery cache after every successful write (see the
counterexample), and the route-level update path never reaches its surgical
update (its cache-update call raises and a successful write surfaces as an
error with the smart cache untouched). -/
theorem c2_surgical_after_success (dd : FastDeviceData) (deviceId : String)
    (u : DeviceUpdates) (tok api : String) (cc : ClusterCache)
    (st : OpsSimpleCache) (sc : SmartCache) (w : World) :
    (∀ cid info doc,
      findByRecType (targetRecTypeFor dd.deviceType) cc.data =
        some (cid, info) →
      w.fetch cid = some doc → w.putOk cid = true →
      (create_device_optimized dd tok api cc st sc w).res.success = true ∧
      (create_device_optimized dd tok api cc st sc w).cc = cc ∧
      (create_device_optimized dd tok api cc st sc w).ops = st ∧
      (create_device_optimized dd tok api cc st sc w).sc =
        (add_device_to_cache cid (fastNewDevice dd w.nowIso) w.now sc).2 ∧
      (create_device_optimized dd tok api cc st sc w).sc.discovery =
        sc.discovery ∧
      (∀ c', c' ≠ cid →
        lookupA (create_device_optimized dd tok api cc st sc w).sc.deviceData.clusters c' =
          lookupA sc.deviceData.clusters c')) ∧
    (∀ deleted cid body ch tr0, cc.data ≠ [] →
      deleteDeviceScan deviceId w cc.data = (.ok deleted cid body ch, tr0) →
      (delete_device_optimized deviceId tok api cc st sc w).res.success =
        true ∧
      (delete_device_optimized deviceId tok api cc st sc w).cc = cc ∧
      (delete_device_optimized deviceId tok api cc st sc w).ops = st ∧
      (delete_device_optimized deviceId tok api cc st sc w).sc =
        (remove_device_from_cache cid deviceId w.now sc).2 ∧
      (delete_device_optimized deviceId tok api cc st sc w).sc.discovery =
        sc.discovery ∧
      (∀ c', c' ≠ cid →
        lookupA (delete_device_optimized deviceId tok api cc st sc w).sc.deviceData.clusters c' =
          lookupA sc.deviceData.clusters c')) ∧
    (∀ dev cid body ch tr1, cc.data ≠ [] →
      updateDeviceScan deviceId u w cc.data = (.ok dev cid body ch, tr1) →
      (update_device_optimized deviceId u tok api cc st sc w).res.success =
        false ∧
      (update_device_optimized deviceId u tok api cc st sc w).sc = sc) := by
  refine ⟨?_, ?_, ?_⟩
  · intro cid info doc hfind hfetch hput
    have ht := getTarget_cache_hit dd tok api cc st w cid info hfind
    have hcf : create_device_fast dd tok api cc st w =
        { out := .ok (fastNewDevice dd w.nowIso) cid
            { doc with devices := doc.devices ++ [fastNewDevice dd w.nowIso] }
            true,
          cc := cc, ops := st,
          trace := [] ++ [RemoteCall.fetch cid, RemoteCall.put cid] } := by
      simp [create_device_fast, ht, hfetch, hput]
    have hroute : create_device_optimized dd tok api cc st sc w =
        { res := { success := true,
                   device := some (fastNewDevice dd w.nowIso),
                   clusterId := some cid, message := "Device created" },
          cc := cc, ops := st,
          sc := (add_device_to_cache cid (fastNewDevice dd w.nowIso)
            w.now sc).2,
          trace := [] ++ [RemoteCall.fetch cid, RemoteCall.put cid] } := by
      unfold create_device_optimized
      rw [hcf]
      simp [update_after_operation]
    refine ⟨by rw [hroute], by rw [hroute], by rw [hroute], by rw [hroute],
      ?_, ?_⟩
    · rw [hroute]
      exact add_discovery_unchanged sc cid (fastNewDevice dd w.nowIso) w.now
    · intro c' hc'
      rw [hroute]
      exact add_frame_clusters sc cid c' (fastNewDevice dd w.nowIso) w.now hc'
  · intro deleted cid body ch tr0 hne hscan
    have hni : cc.data.isEmpty = false := by
      cases hd : cc.data with
      | nil => exact absurd hd hne
      | cons a t => simp
    have hdf : delete_device_fast deviceId tok api cc st w =
        { out := .ok deleted cid body ch, cc := cc, ops := st,
          trace := tr0 } := by
      simp [delete_device_fast, hni, hscan]
    have hroute : delete_device_optimized deviceId tok api cc st sc w =
        { res := { success := true, device := some deleted,
                   clusterId := some cid, message := "Device deleted" },
          cc := cc, ops := st,
          sc := (remove_device_from_cache cid deviceId w.now sc).2,
          trace := tr0 } := by
      unfold delete_device_optimized
      rw [hdf]
      simp [update_after_operation]
    refine ⟨by rw [hroute], by rw [hroute], by rw [hroute], by rw [hroute],
      ?_, ?_⟩
    · rw [hroute]
      exact rem_discovery_unchanged sc cid deviceId w.now
    · intro c' hc'
      rw [hroute]
      exact rem_frame_clusters sc cid c' deviceId w.now hc'
  · intro dev cid body ch tr1 hne hscan
    have hni : cc.data.isEmpty = false := by
      cases hd : cc.data with
      | nil => exact absurd hd hne
      | cons a t => simp
    have huf : update_device_fast deviceId u tok api cc st w =
        { out := .ok dev cid body ch, cc := cc, ops := st,
          trace := tr1 } := by
      simp [update_device_fast, hni, hscan]
    constructor
    · unfold update_device_optimized
      rw [huf]
    · unfold update_device_optimized
      rw [huf]

/-- Witness for the amended C2: concrete successful create, delete and update
write-backs through the route pipeline. -/
theorem c2_surgical_after_success_witness :
    ((create_device_optimized { customer := "Acme", site := "S1", area := "Zone1", erpReference := "R1" } "tok" "api" ⟨[("c1", ⟨"c1", "A", trapRecordType, "rodent_sensor", 1⟩)], 0, 60⟩ ⟨[], 300⟩ ⟨⟨[], 0, 60⟩, ⟨[("c1", ⟨[{ deviceId := some "dd-1" }], ""⟩)], [("c1", 1)], 300⟩⟩ ⟨none, fun c => if c = "c1" then some ⟨[{ deviceId := some "dd-1" }], ""⟩ else none, fun _ => true, 9, "u", "T"⟩).res.success = true ∧
     (create_device_optimized { customer := "Acme", site := "S1", area := "Zone1", erpReference := "R1" } "tok" "api" ⟨[("c1", ⟨"c1", "A", trapRecordType, "rodent_sensor", 1⟩)], 0, 60⟩ ⟨[], 300⟩ ⟨⟨[], 0, 60⟩, ⟨[("c1", ⟨[{ deviceId := some "dd-1" }], ""⟩)], [("c1", 1)], 300⟩⟩ ⟨none, fun c => if c = "c1" then some ⟨[{ deviceId := some "dd-1" }], ""⟩ else none, fun _ => true, 9, "u", "T"⟩).cc = ⟨[("c1", ⟨"c1", "A", trapRecordType, "rodent_sensor", 1⟩)], 0, 60⟩ ∧
     (create_device_optimized { customer := "Acme", site := "S1", area := "Zone1", erpReference := "R1" } "tok" "api" ⟨[("c1", ⟨"c1", "A", trapRecordType, "rodent_sensor", 1⟩)], 0, 60⟩ ⟨[], 300⟩ ⟨⟨[], 0, 60⟩, ⟨[("c1", ⟨[{ deviceId := some "dd-1" }], ""⟩)], [("c1", 1)], 300⟩⟩ ⟨none, fun c => if c = "c1" then some ⟨[{ deviceId := some "dd-1" }], ""⟩ else none, fun _ => true, 9, "u", "T"⟩).ops = ⟨[], 300⟩ ∧
     (create_device_optimized { customer := "Acme", site := "S1", area := "Zone1", erpReference := "R1" } "tok" "api" ⟨[("c1", ⟨"c1", "A", trapRecordType, "rodent_sensor", 1⟩)], 0, 60⟩ ⟨[], 300⟩ ⟨⟨[], 0, 60⟩, ⟨[("c1", ⟨[{ deviceId := some "dd-1" }], ""⟩)], [("c1", 1)], 300⟩⟩ ⟨none, fun c => if c = "c1" then some ⟨[{ deviceId := some "dd-1" }], ""⟩ else none, fun _ => true, 9, "u", "T"⟩).sc =
       (add_device_to_cache "c1" (fastNewDevice { customer := "Acme", site := "S1", area := "Zone1", erpReference := "R1" } "T") 9 ⟨⟨[], 0, 60⟩, ⟨[("c1", ⟨[{ deviceId := some "dd-1" }], ""⟩)], [("c1", 1)], 300⟩⟩).2 ∧
     (create_device_optimized { customer := "Acme", site := "S1", area := "Zone1", erpReference := "R1" } "tok" "api" ⟨[("c1", ⟨"c1", "A", trapRecordType, "rodent_sensor", 1⟩)], 0, 60⟩ ⟨[], 300⟩ ⟨⟨[], 0, 60⟩, ⟨[("c1", ⟨[{ deviceId := some "dd-1" }], ""⟩)], [("c1", 1)], 300⟩⟩ ⟨none, fun c => if c = "c1" then some ⟨[{ deviceId := some "dd-1" }], ""⟩ else none, fun _ => true, 9, "u", "T"⟩).sc.discovery = (⟨⟨[], 0, 60⟩, ⟨[("c1", ⟨[{ deviceId := some "dd-1" }], ""⟩)], [("c1", 1)], 300⟩⟩ : SmartCache).discovery ∧
     (∀ c', c' ≠ "c1" →
       lookupA (create_device_optimized { customer := "Acme", site := "S1", area := "Zone1", erpReference := "R1" } "tok" "api" ⟨[("c1", ⟨"c1", "A", trapRecordType, "rodent_sensor", 1⟩)], 0, 60⟩ ⟨[], 300⟩ ⟨⟨[], 0, 60⟩, ⟨[("c1", ⟨[{ deviceId := some "dd-1" }], ""⟩)], [("c1", 1)], 300⟩⟩ ⟨none, fun c => if c = "c1" then some ⟨[{ deviceId := some "dd-1" }], ""⟩ else none, fun _ => true, 9, "u", "T"⟩).sc.deviceData.clusters c' =
         lookupA (⟨⟨[], 0, 60⟩, ⟨[("c1", ⟨[{ deviceId := some "dd-1" }], ""⟩)], [("c1", 1)], 300⟩⟩ : SmartCache).deviceData.clusters c')) ∧
    ((delete_device_optimized "dd-1" "tok" "api" ⟨[("c1", ⟨"c1", "A", trapRecordType, "rodent_sensor", 1⟩)], 0, 60⟩ ⟨[], 300⟩ ⟨⟨[], 0, 60⟩, ⟨[("c1", ⟨[{ deviceId := some "dd-1" }], ""⟩)], [("c1", 1)], 300⟩⟩ ⟨none, fun c => if c = "c1" then some ⟨[{ deviceId := some "dd-1" }], ""⟩ else none, fun _ => true, 9, "u", "T"⟩).res.success = true ∧
     (delete_device_optimized "dd-1" "tok" "api" ⟨[("c1", ⟨"c1", "A", trapRecordType, "rodent_sensor", 1⟩)], 0, 60⟩ ⟨[], 300⟩ ⟨⟨[], 0, 60⟩, ⟨[("c1", ⟨[{ deviceId := some "dd-1" }], ""⟩)], [("c1", 1)], 300⟩⟩ ⟨none, fun c => if c = "c1" then some ⟨[{ deviceId := some "dd-1" }], ""⟩ else none, fun _ => true, 9, "u", "T"⟩).cc = ⟨[("c1", ⟨"c1", "A", trapRecordType, "rodent_sensor", 1⟩)], 0, 60⟩ ∧
     (delete_device_optimized "dd-1" "tok" "api" ⟨[("c1", ⟨"c1", "A", trapRecordType, "rodent_sensor", 1⟩)], 0, 60⟩ ⟨[], 300⟩ ⟨⟨[], 0, 60⟩, ⟨[("c1", ⟨[{ deviceId := some "dd-1" }], ""⟩)], [("c1", 1)], 300⟩⟩ ⟨none, fun c => if c = "c1" then some ⟨[{ deviceId := some "dd-1" }], ""⟩ else none, fun _ => true, 9, "u", "T"⟩).ops = ⟨[], 300⟩ ∧
     (delete_device_optimized "dd-1" "tok" "api" ⟨[("c1", ⟨"c1", "A", trapRecordType, "rodent_sensor", 1⟩)], 0, 60⟩ ⟨[], 300⟩ ⟨⟨[], 0, 60⟩, ⟨[("c1", ⟨[{ deviceId := some "dd-1" }], ""⟩)], [("c1", 1)], 300⟩⟩ ⟨none, fun c => if c = "c1" then some ⟨[{ deviceId := some "dd-1" }], ""⟩ else none, fun _ => true, 9, "u", "T"⟩).sc = (remove_device_from_cache "c1" "dd-1" 9 ⟨⟨[], 0, 60⟩, ⟨[("c1", ⟨[{ deviceId := some "dd-1" }], ""⟩)], [("c1", 1)], 300⟩⟩).2 ∧
     (delete_device_optimized "dd-1" "tok" "api" ⟨[("c1", ⟨"c1", "A", trapRecordType, "rodent_sensor", 1⟩)], 0, 60⟩ ⟨[], 300⟩ ⟨⟨[], 0, 60⟩, ⟨[("c1", ⟨[{ deviceId := some "dd-1" }], ""⟩)], [("c1", 1)], 300⟩⟩ ⟨none, fun c => if c = "c1" then some ⟨[{ deviceId := some "dd-1" }], ""⟩ else none, fun _ => true, 9, "u", "T"⟩).sc.discovery = (⟨⟨[], 0, 60⟩, ⟨[("c1", ⟨[{ deviceId := some "dd-1" }], ""⟩)], [("c1", 1)], 300⟩⟩ : SmartCache).discovery ∧
     (∀ c', c' ≠ "c1" →
       lookupA (delete_device_optimized "dd-1" "tok" "api" ⟨[("c1", ⟨"c1", "A", trapRecordType, "rodent_sensor", 1⟩)], 0, 60⟩ ⟨[], 300⟩ ⟨⟨[], 0, 60⟩, ⟨[("c1", ⟨[{ deviceId := some "dd-1" }], ""⟩)], [("c1", 1)], 300⟩⟩ ⟨none, fun c => if c = "c1" then some ⟨[{ deviceId := some "dd-1" }], ""⟩ else none, fun _ => true, 9, "u", "T"⟩).sc.deviceData.clusters c' =
         lookupA (⟨⟨[], 0, 60⟩, ⟨[("c1", ⟨[{ deviceId := some "dd-1" }], ""⟩)], [("c1", 1)], 300⟩⟩ : SmartCache).deviceData.clusters c')) ∧
    ((update_device_optimized "dd-1" { area := some "Z2" } "tok" "api" ⟨[("c1", ⟨"c1", "A", trapRecordType, "rodent_sensor", 1⟩)], 0, 60⟩ ⟨[], 300⟩ ⟨⟨[], 0, 60⟩, ⟨[("c1", ⟨[{ deviceId := some "dd-1" }], ""⟩)], [("c1", 1)], 300⟩⟩ ⟨none, fun c => if c = "c1" then some ⟨[{ deviceId := some "dd-1" }], ""⟩ else none, fun _ => true, 9, "u", "T"⟩).res.success = false ∧
     (update_device_optimized "dd-1" { area := some "Z2" } "tok" "api" ⟨[("c1", ⟨"c1", "A", trapRecordType, "rodent_sensor", 1⟩)], 0, 60⟩ ⟨[], 300⟩ ⟨⟨[], 0, 60⟩, ⟨[("c1", ⟨[{ deviceId := some "dd-1" }], ""⟩)], [("c1", 1)], 300⟩⟩ ⟨none, fun c => if c = "c1" then some ⟨[{ deviceId := some "dd-1" }], ""⟩ else none, fun _ => true, 9, "u", "T"⟩).sc = ⟨⟨[], 0, 60⟩, ⟨[("c1", ⟨[{ deviceId := some "dd-1" }], ""⟩)], [("c1", 1)], 300⟩⟩) := by
  refine ⟨?_, ?_, ?_⟩
  · exact (c2_surgical_after_success { customer := "Acme", site := "S1", area := "Zone1", erpReference := "R1" } "dd-1" { area := some "Z2" }
      "tok" "api" ⟨[("c1", ⟨"c1", "A", trapRecordType, "rodent_sensor", 1⟩)], 0, 60⟩ ⟨[], 300⟩ ⟨⟨[], 0, 60⟩, ⟨[("c1", ⟨[{ deviceId := some "dd-1" }], ""⟩)], [("c1", 1)], 300⟩⟩ ⟨none, fun c => if c = "c1" then some ⟨[{ deviceId := some "dd-1" }], ""⟩ else none, fun _ => true, 9, "u", "T"⟩).1 "c1"
      ⟨"c1", "A", trapRecordType, "rodent_sensor", 1⟩
      ⟨[{ deviceId := some "dd-1" }], ""⟩
      (by decide) (by decide) (by decide)
  · exact (c2_surgical_after_success { customer := "Acme", site := "S1", area := "Zone1", erpReference := "R1" } "dd-1" { area := some "Z2" }
      "tok" "api" ⟨[("c1", ⟨"c1", "A", trapRecordType, "rodent_sensor", 1⟩)], 0, 60⟩ ⟨[], 300⟩ ⟨⟨[], 0, 60⟩, ⟨[("c1", ⟨[{ deviceId := some "dd-1" }], ""⟩)], [("c1", 1)], 300⟩⟩ ⟨none, fun c => if c = "c1" then some ⟨[{ deviceId := some "dd-1" }], ""⟩ else none, fun _ => true, 9, "u", "T"⟩).2.1
      { deviceId := some "dd-1" } "c1" ⟨[], ""⟩ false
      [RemoteCall.fetch "c1", RemoteCall.put "c1"]
      (by decide) (by decide)
  · exact (c2_surgical_after_success { customer := "Acme", site := "S1", area := "Zone1", erpReference := "R1" } "dd-1" { area := some "Z2" }
      "tok" "api" ⟨[("c1", ⟨"c1", "A", trapRecordType, "rodent_sensor", 1⟩)], 0, 60⟩ ⟨[], 300⟩ ⟨⟨[], 0, 60⟩, ⟨[("c1", ⟨[{ deviceId := some "dd-1" }], ""⟩)], [("c1", 1)], 300⟩⟩ ⟨none, fun c => if c = "c1" then some ⟨[{ deviceId := some "dd-1" }], ""⟩ else none, fun _ => true, 9, "u", "T"⟩).2.2
      { deviceId := some "dd-1", location := some ["", "", "Z2", ""], lastModified := some "T" } "c1"
      ⟨[{ deviceId := some "dd-1", location := some ["", "", "Z2", ""], lastModified := some "T" }], ""⟩ false
      [RemoteCall.fetch "c1", RemoteCall.put "c1"]
      (by decide) (by decide)

/-- C2 counterexample: the guid-based update of `operations.py` refutes the
claim as stated — after a successful write-back it clears the discovery
cache (`discovery_cache.clear()`), wiping the cached mapping instead of
applying a surgical mutation. -/
theorem c2_clear_on_success_cex :
    (⟨[("discovery:api:tok",
      ({ clusterMap := [("c1", ⟨"c1", "A", trapRecordType,
          "rodent_sensor", 1⟩)],
         totalClusters := 1, totalDevices := 1 }, 0))], 300⟩ :
      OpsSimpleCache).entries ≠ [] ∧
    (update_device_by_guid "g-1" { status := some "active" } "tok" "api"
      ⟨[("discovery:api:tok",
        ({ clusterMap := [("c1", ⟨"c1", "A", trapRecordType,
            "rodent_sensor", 1⟩)],
           totalClusters := 1, totalDevices := 1 }, 0))], 300⟩
      ⟨none, fun c => if c = "c1" then
          some ⟨[{ guid := some "g-1", status := some "pending" }], ""⟩
        else none,
        fun _ => true, 10, "u", "T"⟩).out =
      OpRes.ok { guid := some "g-1", status := some "active", lastModified := some "T" } "c1"
        ⟨[{ guid := some "g-1", status := some "active", lastModified := some "T" }], ""⟩ ∧
    (update_device_by_guid "g-1" { status := some "active" } "tok" "api"
      ⟨[("discovery:api:tok",
        ({ clusterMap := [("c1", ⟨"c1", "A", trapRecordType,
            "rodent_sensor", 1⟩)],
           totalClusters := 1, totalDevices := 1 }, 0))], 300⟩
      ⟨none, fun c => if c = "c1" then
          some ⟨[{ guid := some "g-1", status := some "pending" }], ""⟩
        else none,
        fun _ => true, 10, "u", "T"⟩).cache.entries = [] := by
  refine ⟨by decide, ?_, ?_⟩ <;> decide
